import Mathlib

/-!
Shallow embedding of the SPEAR engagement-simulation core
(`src/scenario/Radar.ts`, `src/scenario/SAMSystem.ts`, `src/scenario/Fighter.ts`,
`src/scenario/Scenario.ts`, `src/services/radarCalculations.ts`,
`src/services/fileStorage.ts`) and proofs about it.

JavaScript `number` values are modelled by `ℝ`.  The JS transcendental
primitives (`Math.atan2`, `Math.log`, `Math.log10`, `Math.pow`, `Math.sqrt`,
`Math.cos`, `Math.sin`, `Math.acos`) are modelled by the corresponding exact
real functions of Mathlib; `Math.pow` on a nonnegative base is `Real.rpow`.
Division by zero in ℝ is total (`x / 0 = 0`); every place a proof depends on a
degenerate quotient is evaluated explicitly so that the JS (`NaN`) behaviour
and the ℝ behaviour of the enclosing boolean result are checked to agree.
`Math.random()` is modelled by an unconstrained oracle `rand : ℕ → ℝ`
(the JS draw is `(Math.random()*2-1)`, a value in `[-1,1]`; the oracle is a
superset, so universally quantified theorems cover every JS behaviour).
-/

noncomputable section

namespace Spear

open Real

/-! ## JS numeric primitives -/

/-- JS `Math.atan2(y, x)` (two-argument arctangent, range `(-π, π]` on ℝ,
where signed zeros do not exist). -/
def jsAtan2 (y x : ℝ) : ℝ :=
  if 0 < x then Real.arctan (y / x)
  else if x < 0 then
    (if 0 ≤ y then Real.arctan (y / x) + Real.pi else Real.arctan (y / x) - Real.pi)
  else
    (if 0 < y then Real.pi / 2 else if y < 0 then -(Real.pi / 2) else 0)

/-- JS truncation toward zero (the rounding used by the `%` operator). -/
def jsTrunc (x : ℝ) : ℤ := if 0 ≤ x then ⌊x⌋ else ⌈x⌉

/-- JS `%` (remainder with the sign of the dividend). -/
def jsMod (a b : ℝ) : ℝ := a - b * (jsTrunc (a / b) : ℝ)

/-- JS `Math.round` (half-way cases toward +∞). -/
def jsRound (x : ℝ) : ℤ := ⌊x + 1 / 2⌋

/-- JS `Math.log10`. -/
def log10 (x : ℝ) : ℝ := Real.logb 10 x

/-! ## `src/services/radarCalculations.ts` -/

/-- `dbToLinear(db)`: `Math.pow(10, db / 10)`. -/
def dbToLinear (db : ℝ) : ℝ := (10 : ℝ) ^ (db / 10)

/-- `linearToDb(linear)`: `10 * Math.log10(linear)`. -/
def linearToDb (linear : ℝ) : ℝ := 10 * log10 linear

/-- The Swerling fluctuation model selector, the TS literal-union type
`0 | 1 | 2 | 3 | 4` of `calculateMinSNRSwerling`. -/
inductive TSwerlingCase where
  | case0 | case1 | case2 | case3 | case4
deriving DecidableEq

/-- `calculateMinSNRSwerling(pd, pfa, swerlingCase, nPulses)` from
`src/services/radarCalculations.ts` (lines 91–139): Albersheim's single-pulse
approximation, then (for `nPulses !== 1`) an integration gain subtracted
according to the Swerling case switch. -/
def calculateMinSNRSwerling (pd pfa : ℝ) (swerlingCase : TSwerlingCase)
    (nPulses : ℕ) : ℝ :=
  let A := Real.log (0.62 / pfa)
  let B := Real.log (pd / (1 - pd))
  let snr_dB := A + 0.12 * A * B + 1.7 * B
  if nPulses = 1 then snr_dB
  else
    match swerlingCase with
    | .case0 => snr_dB - 10 * log10 (nPulses : ℝ)
    | .case1 => snr_dB - 10 * log10 ((nPulses : ℝ) ^ (0.5 : ℝ))
    | .case2 => snr_dB - 10 * log10 ((nPulses : ℝ) ^ (0.7 : ℝ))
    | .case3 => snr_dB - 10 * log10 ((nPulses : ℝ) ^ (0.55 : ℝ))
    | .case4 => snr_dB - 10 * log10 ((nPulses : ℝ) ^ (0.75 : ℝ))

/-! ## `src/scenario/Radar.ts` — pure range-scaling functions -/

/-- `Radar.calculatePulseIntegrationGain(pulses)`:
`wattsToDecibels(Math.pow(pulses, 0.7))` (non-coherent integration; the
source has no coherent code path). -/
def calculatePulseIntegrationGain (pulses : ℝ) : ℝ :=
  10 * log10 (pulses ^ (0.7 : ℝ))

/-- `Radar.decibelsToWatts(db)`. -/
def decibelsToWatts (db : ℝ) : ℝ := (10 : ℝ) ^ (db / 10)

/-- `Radar.rangeDeltaFromDecibels(dbGain)`: fourth root of the linear gain. -/
def rangeDeltaFromDecibels (dbGain : ℝ) : ℝ :=
  (decibelsToWatts dbGain) ^ (0.25 : ℝ)

/-- `Radar.calculateDetectionRange(rcs, pulses, range)` (Radar.ts lines
177–183): scales the base range by the fourth root of the pulse-integration
gain and by `rcs^0.25`. -/
def calculateDetectionRange (rcs pulses range : ℝ) : ℝ :=
  let pulseGain := calculatePulseIntegrationGain pulses
  let range' := range * rangeDeltaFromDecibels pulseGain
  let rcsRatio := rcs / 1.0
  let rangeRatio := rcsRatio ^ (0.25 : ℝ)
  range' * rangeRatio

/-! ### Helper facts about the range scaling -/

theorem calculatePulseIntegrationGain_one : calculatePulseIntegrationGain 1 = 0 := by
  simp [calculatePulseIntegrationGain, log10, Real.one_rpow]

theorem rangeDeltaFromDecibels_zero : rangeDeltaFromDecibels 0 = 1 := by
  simp [rangeDeltaFromDecibels, decibelsToWatts, Real.one_rpow]

/-- With a single pulse the detection range is just `range * rcs^0.25`. -/
theorem calculateDetectionRange_one_pulse (rcs range : ℝ) :
    calculateDetectionRange rcs 1 range = range * rcs ^ (0.25 : ℝ) := by
  simp only [calculateDetectionRange, calculatePulseIntegrationGain_one,
    rangeDeltaFromDecibels_zero, mul_one]
  norm_num

/-- With RCS 1 and a single pulse the detection range is the base range. -/
theorem calculateDetectionRange_one_one (range : ℝ) :
    calculateDetectionRange 1 1 range = range := by
  rw [calculateDetectionRange_one_pulse]
  norm_num

/-! ## Spec-side formulation of the Swerling minimum-SNR model (§4.2) -/

/-- The spec's Albersheim single-pulse value
`A + 0.12·A·B + 1.7·B` with `A = ln(0.62/pfa)`, `B = ln(pd/(1-pd))`. -/
def albersheimSNR (pd pfa : ℝ) : ℝ :=
  Real.log (0.62 / pfa) +
    0.12 * Real.log (0.62 / pfa) * Real.log (pd / (1 - pd)) +
    1.7 * Real.log (pd / (1 - pd))

/-- The spec's fixed five-model exponent table: non-fluctuating `k = 1`,
fluctuating variants `k ∈ {0.5, 0.7, 0.55, 0.75}`. -/
def swerlingExponent : TSwerlingCase → ℝ
  | .case0 => 1
  | .case1 => 0.5
  | .case2 => 0.7
  | .case3 => 0.55
  | .case4 => 0.75

/-- C6: for every probability of detection `pd ∈ (0,1)`, false-alarm
probability `pfa ∈ (0,1)`, fluctuation model and pulse count `≥ 1`, the
minimum required SNR equals the Albersheim single-pulse value, with an
integration gain of `10·log10(numPulses^k)` subtracted when `numPulses > 1`,
where `k` follows the fixed five-model table. -/
theorem minSNRSwerling_matches_albersheim_table (pd pfa : ℝ) (c : TSwerlingCase)
    (n : ℕ) (hpd0 : 0 < pd) (hpd1 : pd < 1) (hpfa0 : 0 < pfa) (hpfa1 : pfa < 1)
    (hn : 1 ≤ n) :
    calculateMinSNRSwerling pd pfa c n =
      albersheimSNR pd pfa -
        (if 1 < n then 10 * log10 ((n : ℝ) ^ swerlingExponent c) else 0) := by
  unfold calculateMinSNRSwerling albersheimSNR
  rcases eq_or_lt_of_le hn with h1 | h1
  · rw [if_pos h1.symm, if_neg (by omega)]
    ring
  · have hne : n ≠ 1 := by omega
    rw [if_neg hne, if_pos h1]
    cases c <;> simp only [swerlingExponent, Real.rpow_one] <;> ring

/-- Witness for `minSNRSwerling_matches_albersheim_table` at
`pd = 1/2`, `pfa = 1/4`, Swerling case 2, 3 pulses. -/
theorem minSNRSwerling_matches_albersheim_table_witness :
    (0 < (1/2 : ℝ) ∧ (1/2 : ℝ) < 1 ∧ 0 < (1/4 : ℝ) ∧ (1/4 : ℝ) < 1 ∧ 1 ≤ 3) ∧
    calculateMinSNRSwerling (1/2) (1/4) .case2 3 =
      albersheimSNR (1/2) (1/4) -
        (if 1 < 3 then 10 * log10 ((3 : ℕ) ^ swerlingExponent .case2) else 0) :=
  ⟨by norm_num,
   minSNRSwerling_matches_albersheim_table (1/2) (1/4) .case2 3
     (by norm_num) (by norm_num) (by norm_num) (by norm_num) (by norm_num)⟩

/-! ## C7: monotonicity of the free-space detection range -/

/-- For positive pulse counts the pulse-gain range factor is
`(pulses^0.7)^0.25`. -/
theorem rangeDelta_pulseGain (p : ℝ) (hp : 0 < p) :
    rangeDeltaFromDecibels (calculatePulseIntegrationGain p) =
      (p ^ (0.7 : ℝ)) ^ (0.25 : ℝ) := by
  unfold rangeDeltaFromDecibels decibelsToWatts calculatePulseIntegrationGain log10
  rw [mul_div_cancel_left₀ _ (by norm_num : (10 : ℝ) ≠ 0),
    Real.rpow_logb (by norm_num) (by norm_num) (Real.rpow_pos_of_pos hp _)]

/-- C7 (amended): for `0 < rcs₁ ≤ rcs₂`, a nonnegative base range, and pulse
counts `1 ≤ p₁ ≤ p₂`, `calculateDetectionRange` is monotonically increasing
in the RCS and in the pulse count.  (The implementation has a single,
non-coherent integration gain `pulses^0.7`; there is no coherent code path,
and for a negative base range the scaling reverses — see
`detectionRange_not_monotone_for_negative_range`.) -/
theorem detectionRange_monotone (rcs₁ rcs₂ range : ℝ) (p₁ p₂ : ℕ)
    (hr : 0 ≤ range) (h0 : 0 < rcs₁) (hrcs : rcs₁ ≤ rcs₂)
    (hp1 : 1 ≤ p₁) (hp : p₁ ≤ p₂) :
    calculateDetectionRange rcs₁ (p₁ : ℝ) range ≤
        calculateDetectionRange rcs₂ (p₁ : ℝ) range ∧
    calculateDetectionRange rcs₁ (p₁ : ℝ) range ≤
        calculateDetectionRange rcs₁ (p₂ : ℝ) range := by
  have hp₁R : (0 : ℝ) < (p₁ : ℝ) := by exact_mod_cast Nat.lt_of_lt_of_le Nat.zero_lt_one hp1
  have hp₂R : (0 : ℝ) < (p₂ : ℝ) := lt_of_lt_of_le hp₁R (by exact_mod_cast hp)
  have hdiv : ∀ x : ℝ, x / 1.0 = x := fun x => by norm_num
  simp only [calculateDetectionRange, hdiv]
  rw [rangeDelta_pulseGain _ hp₁R, rangeDelta_pulseGain _ hp₂R]
  have hdelta₁ : (0 : ℝ) ≤ ((p₁ : ℝ) ^ (0.7 : ℝ)) ^ (0.25 : ℝ) :=
    (Real.rpow_pos_of_pos (Real.rpow_pos_of_pos hp₁R _) _).le
  constructor
  · apply mul_le_mul_of_nonneg_left
    · exact Real.rpow_le_rpow (by positivity) (by simpa using hrcs) (by norm_num)
    · exact mul_nonneg hr hdelta₁
  · apply mul_le_mul_of_nonneg_right
    · apply mul_le_mul_of_nonneg_left _ hr
      apply Real.rpow_le_rpow (Real.rpow_nonneg hp₁R.le _) _ (by norm_num)
      exact Real.rpow_le_rpow hp₁R.le (by exact_mod_cast hp) (by norm_num)
    · positivity

/-- Witness for `detectionRange_monotone` at `rcs 1 ≤ 2`, base range 1,
pulse counts `1 ≤ 2`. -/
theorem detectionRange_monotone_witness :
    ((0 : ℝ) ≤ 1 ∧ (0 : ℝ) < 1 ∧ (1 : ℝ) ≤ 2 ∧ 1 ≤ 1 ∧ 1 ≤ 2) ∧
    (calculateDetectionRange 1 ((1 : ℕ) : ℝ) 1 ≤
        calculateDetectionRange 2 ((1 : ℕ) : ℝ) 1 ∧
     calculateDetectionRange 1 ((1 : ℕ) : ℝ) 1 ≤
        calculateDetectionRange 1 ((2 : ℕ) : ℝ) 1) :=
  ⟨by norm_num,
   detectionRange_monotone 1 2 1 1 2 (by norm_num) (by norm_num) (by norm_num)
     (by norm_num) (by norm_num)⟩

/-- C7 counterexample: with base range `-1` (the claim quantifies over
*every* base range) the detection range strictly decreases as the RCS grows
from 1 to 16, so the claimed monotonicity in RCS fails. -/
theorem detectionRange_not_monotone_for_negative_range :
    ¬ (calculateDetectionRange 1 1 (-1) ≤ calculateDetectionRange 16 1 (-1)) := by
  rw [calculateDetectionRange_one_pulse, calculateDetectionRange_one_pulse]
  have h16 : (16 : ℝ) ^ (0.25 : ℝ) = 2 := by
    rw [(by norm_num : (16 : ℝ) = 2 ^ (4 : ℕ)), ← Real.rpow_natCast 2 4,
      ← Real.rpow_mul (by norm_num)]
    norm_num
  rw [Real.one_rpow, h16]
  norm_num

/-! ## `src/services/fileStorage.ts` — ITU attenuation table (lines 442–520) -/

/-- The `IITUData` record (fields used by `getAttenuation`). -/
structure IITUData where
  attenuationMatrix : List (List ℝ)
  frequencies : List ℝ
  rainRates : List ℝ
  frequencyRange : ℝ × ℝ
  rainRateRange : ℝ × ℝ

/-- `lerp(x, x0, x1, y0, y1)` — the linear-interpolation helper. -/
def lerp (x x0 x1 y0 y1 : ℝ) : ℝ := y0 + (x - x0) * (y1 - y0) / (x1 - x0)

/-- The bounding-index scan loop of `getAttenuation`
(`for (let i = 0; i < arr.length - 1; i++) if (x >= arr[i] && x <= arr[i+1])
{ idx0 = i; idx1 = i + 1; break; }`), starting at index `i`; the indices
stay `(0, 0)` when no bracketing interval is found. -/
def bracketScan (l : List ℝ) (x : ℝ) (i : ℕ) : ℕ × ℕ :=
  if h : i + 1 < l.length then
    if l.get ⟨i, Nat.lt_of_succ_lt h⟩ ≤ x ∧ x ≤ l.get ⟨i + 1, h⟩ then (i, i + 1)
    else bracketScan l x (i + 1)
  else (0, 0)
termination_by l.length - i

/-- The full bounding-index computation: the scan loop followed by the
`if (x >= arr[arr.length - 1]) idx0 = idx1 = arr.length - 1` override. -/
def findBracket (l : List ℝ) (x : ℝ) : ℕ × ℕ :=
  let p := bracketScan l x 0
  match l.getLast? with
  | none => p
  | some last => if last ≤ x then (l.length - 1, l.length - 1) else p

/-- `getAttenuation`'s main body (after the loaded-data guard): clamp both
coordinates, find the bounding grid indices on each axis, read the four
corner values (`?? 0` on missing entries) and bilinearly interpolate, with
the degenerate branches when either axis collapsed to a single index. -/
def getAttenuationTable (d : IITUData) (frequency rainRate : ℝ) : ℝ :=
  if d.attenuationMatrix.length = 0 then 0
  else
    let frequency := max d.frequencyRange.1 (min d.frequencyRange.2 frequency)
    let rainRate := max d.rainRateRange.1 (min d.rainRateRange.2 rainRate)
    let fb := findBracket d.frequencies frequency
    let rb := findBracket d.rainRates rainRate
    let q00 := (d.attenuationMatrix.getD fb.1 []).getD rb.1 0
    let q01 := (d.attenuationMatrix.getD fb.1 []).getD rb.2 0
    let q10 := (d.attenuationMatrix.getD fb.2 []).getD rb.1 0
    let q11 := (d.attenuationMatrix.getD fb.2 []).getD rb.2 0
    let f0 := d.frequencies.getD fb.1 0
    let f1 := d.frequencies.getD fb.2 0
    let r0 := d.rainRates.getD rb.1 0
    let r1 := d.rainRates.getD rb.2 0
    if fb.1 = fb.2 ∧ rb.1 = rb.2 then q00
    else if fb.1 = fb.2 then lerp rainRate r0 r1 q00 q01
    else if rb.1 = rb.2 then lerp frequency f0 f1 q00 q10
    else lerp rainRate r0 r1 (lerp frequency f0 f1 q00 q10)
      (lerp frequency f0 f1 q01 q11)

/-- `getAttenuation(frequency, rainRate)`: throws when the module cache
`cachedITUData` is not populated, otherwise interpolates in the table. -/
def getAttenuation (cachedITUData : Option IITUData) (frequency rainRate : ℝ) :
    Except String ℝ :=
  match cachedITUData with
  | none => .error "ITU data not loaded. Call loadITUData() first."
  | some d => .ok (getAttenuationTable d frequency rainRate)

/-- Accessors used to state properties of the table (JS reads
`frequencies[i]`, `rainRates[j]`, `attenuationMatrix[i][j]`). -/
def ituFreq (d : IITUData) (i : ℕ) : ℝ := d.frequencies.getD i 0

def ituRain (d : IITUData) (j : ℕ) : ℝ := d.rainRates.getD j 0

def ituQ (d : IITUData) (i j : ℕ) : ℝ := (d.attenuationMatrix.getD i []).getD j 0

/-- Well-formedness of a loaded table, as `loadITUData` produces it: one
matrix row per frequency row, every row as wide as the fixed rain-rate
scale, both axes strictly increasing with at least two grid lines (the
shipped dataset has a 0.2 GHz frequency ladder and the 19-point ITU
rain-rate scale), and the clamping ranges equal to the first/last grid
values. -/
structure ITUWellFormed (d : IITUData) : Prop where
  rows_len : d.attenuationMatrix.length = d.frequencies.length
  cols_len : ∀ row ∈ d.attenuationMatrix, row.length = d.rainRates.length
  freq_sorted : d.frequencies.Chain' (· < ·)
  rain_sorted : d.rainRates.Chain' (· < ·)
  freq_two : 2 ≤ d.frequencies.length
  rain_two : 2 ≤ d.rainRates.length
  freq_lo : d.frequencyRange.1 = ituFreq d 0
  freq_hi : d.frequencyRange.2 = ituFreq d (d.frequencies.length - 1)
  rain_lo : d.rainRateRange.1 = ituRain d 0
  rain_hi : d.rainRateRange.2 = ituRain d (d.rainRates.length - 1)

/-! ### Interpolation and sorted-list helper lemmas -/

theorem lerp_left (x0 x1 y0 y1 : ℝ) : lerp x0 x0 x1 y0 y1 = y0 := by
  simp [lerp]

theorem lerp_right {x0 x1 : ℝ} (h : x0 ≠ x1) (y0 y1 : ℝ) :
    lerp x1 x0 x1 y0 y1 = y1 := by
  have hne : x1 - x0 ≠ 0 := sub_ne_zero.2 (Ne.symm h)
  field_simp [lerp]

theorem lerp_mid {x0 x1 : ℝ} (h : x0 ≠ x1) (y0 y1 : ℝ) :
    lerp ((x0 + x1) / 2) x0 x1 y0 y1 = (y0 + y1) / 2 := by
  have hne : x1 - x0 ≠ 0 := sub_ne_zero.2 (Ne.symm h)
  field_simp [lerp]
  ring

theorem sorted_getD_lt (l : List ℝ) (hs : l.Chain' (· < ·)) {i j : ℕ}
    (hij : i < j) (hj : j < l.length) : l.getD i 0 < l.getD j 0 := by
  have hp := (List.chain'_iff_pairwise).1 hs
  rw [List.pairwise_iff_getElem] at hp
  have hi : i < l.length := lt_trans hij hj
  rw [List.getD_eq_getElem l 0 hi, List.getD_eq_getElem l 0 hj]
  exact hp i j hi hj hij

theorem sorted_getD_le (l : List ℝ) (hs : l.Chain' (· < ·)) {i j : ℕ}
    (hij : i ≤ j) (hj : j < l.length) : l.getD i 0 ≤ l.getD j 0 := by
  rcases eq_or_lt_of_le hij with h | h
  · rw [h]
  · exact (sorted_getD_lt l hs h hj).le

theorem getLast?_eq_getD (l : List ℝ) (h : l ≠ []) :
    l.getLast? = some (l.getD (l.length - 1) 0) := by
  have hlen : l.length - 1 < l.length := Nat.sub_lt (List.length_pos.2 h) Nat.one_pos
  rw [List.getLast?_eq_getLast l h, List.getLast_eq_getElem, List.getD_eq_getElem l 0 hlen]

theorem clamp_id {lo hi x : ℝ} (h1 : lo ≤ x) (h2 : x ≤ hi) :
    max lo (min hi x) = x := by
  rw [min_eq_right h2, max_eq_right h1]

/-! ### Characterizing the bounding-index scan -/

theorem bracketScan_hit (l : List ℝ) (x : ℝ) (i : ℕ) (h : i + 1 < l.length)
    (h1 : l.getD i 0 ≤ x) (h2 : x ≤ l.getD (i + 1) 0) :
    bracketScan l x i = (i, i + 1) := by
  rw [bracketScan, dif_pos h, if_pos]
  constructor
  · rwa [List.get_eq_getElem, ← List.getD_eq_getElem l 0 (Nat.lt_of_succ_lt h)]
  · rwa [List.get_eq_getElem, ← List.getD_eq_getElem l 0 h]

theorem bracketScan_skip (l : List ℝ) (x : ℝ) (i : ℕ) (h : i + 1 < l.length)
    (hno : ¬(l.getD i 0 ≤ x ∧ x ≤ l.getD (i + 1) 0)) :
    bracketScan l x i = bracketScan l x (i + 1) := by
  rw [bracketScan, dif_pos h, if_neg]
  intro hcon
  refine hno ⟨?_, ?_⟩
  · have := hcon.1
    rwa [List.get_eq_getElem, ← List.getD_eq_getElem l 0 (Nat.lt_of_succ_lt h)] at this
  · have := hcon.2
    rwa [List.get_eq_getElem, ← List.getD_eq_getElem l 0 h] at this

theorem bracketScan_finds (l : List ℝ) (x : ℝ) (hs : l.Chain' (· < ·)) (j : ℕ)
    (hj : j + 1 < l.length) (hx1 : l.getD j 0 < x) (hx2 : x ≤ l.getD (j + 1) 0) :
    ∀ i, i ≤ j → bracketScan l x i = (j, j + 1) := by
  have H : ∀ m i, i ≤ j → j - i = m → bracketScan l x i = (j, j + 1) := by
    intro m
    induction m with
    | zero =>
      intro i hi hm
      have : i = j := by omega
      subst this
      exact bracketScan_hit l x i hj hx1.le hx2
    | succ m ih =>
      intro i hi hm
      have hij : i < j := by omega
      have hi1 : i + 1 < l.length := by omega
      have hle : l.getD (i + 1) 0 ≤ l.getD j 0 :=
        sorted_getD_le l hs (by omega) (by omega)
      have hno : ¬(l.getD i 0 ≤ x ∧ x ≤ l.getD (i + 1) 0) := by
        rintro ⟨-, hup⟩
        exact absurd (hup.trans hle) (not_le.2 hx1)
      rw [bracketScan_skip l x i hi1 hno]
      exact ih (i + 1) (by omega) (by omega)
  exact fun i hi => H (j - i) i hi rfl

theorem findBracket_top (l : List ℝ) (x : ℝ) (hne : l ≠ [])
    (hx : l.getD (l.length - 1) 0 ≤ x) :
    findBracket l x = (l.length - 1, l.length - 1) := by
  rw [findBracket, getLast?_eq_getD l hne]
  simp only [if_pos hx]

theorem findBracket_inside (l : List ℝ) (x : ℝ) (hs : l.Chain' (· < ·)) (j : ℕ)
    (hj : j + 1 < l.length) (hx1 : l.getD j 0 < x) (hx2 : x ≤ l.getD (j + 1) 0)
    (hxlast : x < l.getD (l.length - 1) 0) :
    findBracket l x = (j, j + 1) := by
  have hne : l ≠ [] := List.length_pos.1 (by omega)
  rw [findBracket, getLast?_eq_getD l hne]
  simp only [if_neg (not_le.2 hxlast)]
  exact bracketScan_finds l x hs j hj hx1 hx2 0 (Nat.zero_le j)

theorem findBracket_first (l : List ℝ) (x : ℝ) (h1 : 1 < l.length)
    (hx0 : l.getD 0 0 ≤ x) (hx1 : x ≤ l.getD 1 0)
    (hxlast : x < l.getD (l.length - 1) 0) :
    findBracket l x = (0, 1) := by
  have hne : l ≠ [] := List.length_pos.1 (by omega)
  rw [findBracket, getLast?_eq_getD l hne]
  simp only [if_neg (not_le.2 hxlast)]
  exact bracketScan_hit l x 0 h1 hx0 hx1

/-- Index pair found when the query is exactly the `j`-th grid value. -/
theorem findBracket_at_node (l : List ℝ) (hs : l.Chain' (· < ·)) (j : ℕ)
    (hj : j < l.length) (h2 : 2 ≤ l.length) :
    findBracket l (l.getD j 0) =
      if j = l.length - 1 then (j, j)
      else if j = 0 then (0, 1) else (j - 1, j) := by
  rcases eq_or_ne j (l.length - 1) with htop | htop
  · rw [if_pos htop]
    have hfb := findBracket_top l (l.getD j 0) (List.length_pos.1 (by omega))
      (le_of_eq (by rw [← htop]))
    rw [hfb, ← htop]
  · have hjlt : j + 1 < l.length := by omega
    have hlast : l.getD j 0 < l.getD (l.length - 1) 0 :=
      sorted_getD_lt l hs (by omega) (by omega)
    rw [if_neg htop]
    rcases eq_or_ne j 0 with h0 | h0
    · rw [if_pos h0]
      subst h0
      exact findBracket_first l _ (by omega) (le_refl _)
        (sorted_getD_le l hs (by omega) (by omega)) hlast
    · rw [if_neg h0]
      have hj1 : (j - 1) + 1 = j := by omega
      have := findBracket_inside l (l.getD j 0) hs (j - 1) (by omega)
        (sorted_getD_lt l hs (by omega) hj)
        (le_of_eq (by rw [hj1])) hlast
      rwa [hj1] at this

/-- Index pair found when the query lies strictly between two adjacent grid
values (or equals the right one, away from the top of the grid). -/
theorem findBracket_between (l : List ℝ) (x : ℝ) (hs : l.Chain' (· < ·)) (j : ℕ)
    (hj : j + 1 < l.length) (hx1 : l.getD j 0 < x) (hx2 : x ≤ l.getD (j + 1) 0)
    (hxtop : x < l.getD (l.length - 1) 0) :
    findBracket l x = (j, j + 1) :=
  findBracket_inside l x hs j hj hx1 hx2 hxtop

/-- Unfolding of `getAttenuationTable` once the clamps are identities and
both bounding-index pairs are known. -/
theorem getAttenuationTable_eval (d : IITUData) (fq rq : ℝ)
    (hne : ¬ d.attenuationMatrix.length = 0)
    (hF : max d.frequencyRange.1 (min d.frequencyRange.2 fq) = fq)
    (hR : max d.rainRateRange.1 (min d.rainRateRange.2 rq) = rq)
    (a b c e : ℕ)
    (hfb : findBracket d.frequencies fq = (a, b))
    (hrb : findBracket d.rainRates rq = (c, e)) :
    getAttenuationTable d fq rq =
      if a = b ∧ c = e then ituQ d a c
      else if a = b then
        lerp rq (ituRain d c) (ituRain d e) (ituQ d a c) (ituQ d a e)
      else if c = e then
        lerp fq (ituFreq d a) (ituFreq d b) (ituQ d a c) (ituQ d b c)
      else
        lerp rq (ituRain d c) (ituRain d e)
          (lerp fq (ituFreq d a) (ituFreq d b) (ituQ d a c) (ituQ d b c))
          (lerp fq (ituFreq d a) (ituFreq d b) (ituQ d a e) (ituQ d b e)) := by
  rw [getAttenuationTable, if_neg hne]
  simp only [hF, hR, hfb, hrb, ituQ, ituFreq, ituRain]

/-- At a grid node the bounding-index pair is either degenerate at the top
row or an adjacent pair with the node at one of its ends. -/
theorem findBracket_node_spec (l : List ℝ) (hs : l.Chain' (· < ·)) (j : ℕ)
    (hj : j < l.length) (h2 : 2 ≤ l.length) :
    (findBracket l (l.getD j 0) = (j, j) ∧ j = l.length - 1) ∨
    (∃ u, findBracket l (l.getD j 0) = (u, u + 1) ∧ u + 1 < l.length ∧
      (u = j ∨ u + 1 = j)) := by
  have hfb := findBracket_at_node l hs j hj h2
  rcases eq_or_ne j (l.length - 1) with htop | htop
  · left
    rw [hfb, if_pos htop]
    exact ⟨rfl, htop⟩
  · right
    rw [if_neg htop] at hfb
    rcases eq_or_ne j 0 with h0 | h0
    · rw [if_pos h0] at hfb
      exact ⟨0, by simpa using hfb, by omega, Or.inl h0.symm⟩
    · rw [if_neg h0] at hfb
      refine ⟨j - 1, ?_, by omega, Or.inr (by omega)⟩
      rw [hfb]
      congr 1
      omega

/-- For a query between two adjacent grid values, the bounding-index pair is
either degenerate at the top (only when the query *is* the top value) or an
adjacent in-bounds pair that still brackets the query, with the original
interval's left index at one of its ends. -/
theorem findBracket_query_spec (l : List ℝ) (hs : l.Chain' (· < ·)) (j : ℕ)
    (hj : j + 1 < l.length) (x : ℝ) (hx0 : l.getD j 0 ≤ x)
    (hx1 : x ≤ l.getD (j + 1) 0) :
    (findBracket l x = (l.length - 1, l.length - 1) ∧
      x = l.getD (l.length - 1) 0 ∧ j + 1 = l.length - 1) ∨
    (∃ u, findBracket l x = (u, u + 1) ∧ u + 1 < l.length ∧
      l.getD u 0 ≤ x ∧ x ≤ l.getD (u + 1) 0 ∧
      (u = j ∨ (u + 1 = j ∧ x = l.getD j 0))) := by
  by_cases htop : l.getD (l.length - 1) 0 ≤ x
  · left
    have hle : l.getD (j + 1) 0 ≤ l.getD (l.length - 1) 0 :=
      sorted_getD_le l hs (by omega) (by omega)
    have hxeq : x = l.getD (l.length - 1) 0 :=
      le_antisymm (hx1.trans hle) htop
    have hjtop : j + 1 = l.length - 1 := by
      by_contra hcon
      have hlt : l.getD (j + 1) 0 < l.getD (l.length - 1) 0 :=
        sorted_getD_lt l hs (by omega) (by omega)
      exact absurd (lt_of_le_of_lt (htop.trans hx1) hlt) (lt_irrefl _)
    exact ⟨findBracket_top l x (List.length_pos.1 (by omega)) htop, hxeq, hjtop⟩
  · right
    push_neg at htop
    rcases eq_or_lt_of_le hx0 with hxeq | hxlt
    · rcases eq_or_ne j 0 with h0 | h0
      · subst h0
        exact ⟨0, findBracket_first l x (by omega) hx0 hx1 htop, by omega,
          hx0, hx1, Or.inl rfl⟩
      · have hfb := findBracket_at_node l hs j (by omega) (by omega)
        have hjne : j ≠ l.length - 1 := by
          intro hcon
          rw [← hxeq, hcon] at htop
          exact absurd htop (lt_irrefl _)
        rw [if_neg hjne, if_neg h0] at hfb
        refine ⟨j - 1, ?_, by omega, ?_, ?_, Or.inr ⟨by omega, hxeq.symm⟩⟩
        · rw [← hxeq, hfb]
          congr 1
          omega
        · rw [← hxeq]
          exact sorted_getD_le l hs (by omega) (by omega)
        · have : j - 1 + 1 = j := by omega
          rw [this, ← hxeq]
    · exact ⟨j, findBracket_between l x hs j hj hxlt hx1 htop, hj,
        hx0, hx1, Or.inl rfl⟩

/-- Evaluating a 1-D interpolation over an adjacent pair at the grid node
sitting at one of its two ends picks out that end's value. -/
theorem lerp_node_eval (l : List ℝ) (hs : l.Chain' (· < ·)) (u j : ℕ)
    (hu : u + 1 < l.length) (hj : u = j ∨ u + 1 = j) (g : ℕ → ℝ) :
    lerp (l.getD j 0) (l.getD u 0) (l.getD (u + 1) 0) (g u) (g (u + 1)) = g j := by
  have hne : l.getD u 0 ≠ l.getD (u + 1) 0 :=
    ne_of_lt (sorted_getD_lt l hs (by omega) hu)
  rcases hj with rfl | rfl
  · exact lerp_left _ _ _ _
  · exact lerp_right hne _ _

/-- Querying the table at a frequency grid node, with the rain-rate anywhere
between two adjacent rain nodes, is the 1-D linear interpolation along the
rain axis. -/
theorem getAtt_rain_line (d : IITUData) (h : ITUWellFormed d) (i j : ℕ) (x : ℝ)
    (hi : i < d.frequencies.length) (hj : j + 1 < d.rainRates.length)
    (hx0 : ituRain d j ≤ x) (hx1 : x ≤ ituRain d (j + 1)) :
    getAttenuationTable d (ituFreq d i) x =
      lerp x (ituRain d j) (ituRain d (j + 1)) (ituQ d i j) (ituQ d i (j + 1)) := by
  simp only [ituFreq, ituRain, ituQ] at hx0 hx1 ⊢
  have hne : ¬ d.attenuationMatrix.length = 0 := by rw [h.rows_len]; omega
  have hFc : max d.frequencyRange.1 (min d.frequencyRange.2 (d.frequencies.getD i 0)) =
      d.frequencies.getD i 0 := by
    rw [h.freq_lo, h.freq_hi]
    exact clamp_id (sorted_getD_le _ h.freq_sorted (by omega) hi)
      (sorted_getD_le _ h.freq_sorted (by omega) (by omega))
  have hRc : max d.rainRateRange.1 (min d.rainRateRange.2 x) = x := by
    rw [h.rain_lo, h.rain_hi]
    exact clamp_id ((sorted_getD_le _ h.rain_sorted (by omega) (by omega)).trans hx0)
      (hx1.trans (sorted_getD_le _ h.rain_sorted (by omega) (by omega)))
  have hRne : d.rainRates.getD j 0 ≠ d.rainRates.getD (j + 1) 0 :=
    ne_of_lt (sorted_getD_lt _ h.rain_sorted (by omega) hj)
  rcases findBracket_node_spec d.frequencies h.freq_sorted i hi h.freq_two with
    ⟨hfb, -⟩ | ⟨u, hfb, hu, hui⟩
  · rcases findBracket_query_spec d.rainRates h.rain_sorted j hj x hx0 hx1 with
      ⟨hrb, hxeq, hjtop⟩ | ⟨v, hrb, hv, -, -, hvj⟩
    · rw [getAttenuationTable_eval d _ x hne hFc hRc i i _ _ hfb hrb,
        if_pos ⟨rfl, rfl⟩]
      simp only [ituQ, ituRain]
      have hfix : d.rainRates.length - 1 = j + 1 := hjtop.symm
      rw [hfix] at hxeq ⊢
      rw [hxeq, lerp_right hRne]
    · rw [getAttenuationTable_eval d _ x hne hFc hRc i i v (v + 1) hfb hrb,
        if_neg (by omega), if_pos rfl]
      simp only [ituQ, ituRain]
      rcases hvj with rfl | ⟨hvj, hxnode⟩
      · rfl
      · subst hvj
        rw [hxnode, lerp_right (ne_of_lt (sorted_getD_lt _ h.rain_sorted (by omega) hv)),
          lerp_left]
  · rcases findBracket_query_spec d.rainRates h.rain_sorted j hj x hx0 hx1 with
      ⟨hrb, hxeq, hjtop⟩ | ⟨v, hrb, hv, -, -, hvj⟩
    · rw [getAttenuationTable_eval d _ x hne hFc hRc u (u + 1) _ _ hfb hrb,
        if_neg (by omega), if_neg (by omega), if_pos rfl]
      simp only [ituQ, ituRain, ituFreq]
      rw [lerp_node_eval d.frequencies h.freq_sorted u i hu hui
        (fun k => (d.attenuationMatrix.getD k []).getD (d.rainRates.length - 1) 0)]
      have hfix : d.rainRates.length - 1 = j + 1 := hjtop.symm
      rw [hfix] at hxeq ⊢
      rw [hxeq, lerp_right hRne]
    · rw [getAttenuationTable_eval d _ x hne hFc hRc u (u + 1) v (v + 1) hfb hrb,
        if_neg (by omega), if_neg (by omega), if_neg (by omega)]
      simp only [ituQ, ituRain, ituFreq]
      rw [lerp_node_eval d.frequencies h.freq_sorted u i hu hui
          (fun k => (d.attenuationMatrix.getD k []).getD v 0),
        lerp_node_eval d.frequencies h.freq_sorted u i hu hui
          (fun k => (d.attenuationMatrix.getD k []).getD (v + 1) 0)]
      rcases hvj with rfl | ⟨hvj, hxnode⟩
      · rfl
      · subst hvj
        rw [hxnode, lerp_right (ne_of_lt (sorted_getD_lt _ h.rain_sorted (by omega) hv)),
          lerp_left]

/-- Querying the table at a rain-rate grid node, with the frequency anywhere
between two adjacent frequency nodes, is the 1-D linear interpolation along
the frequency axis. -/
theorem getAtt_freq_line (d : IITUData) (h : ITUWellFormed d) (i j : ℕ) (x : ℝ)
    (hi : i + 1 < d.frequencies.length) (hj : j < d.rainRates.length)
    (hx0 : ituFreq d i ≤ x) (hx1 : x ≤ ituFreq d (i + 1)) :
    getAttenuationTable d x (ituRain d j) =
      lerp x (ituFreq d i) (ituFreq d (i + 1)) (ituQ d i j) (ituQ d (i + 1) j) := by
  simp only [ituFreq, ituRain, ituQ] at hx0 hx1 ⊢
  have hne : ¬ d.attenuationMatrix.length = 0 := by rw [h.rows_len]; omega
  have hFc : max d.frequencyRange.1 (min d.frequencyRange.2 x) = x := by
    rw [h.freq_lo, h.freq_hi]
    exact clamp_id ((sorted_getD_le _ h.freq_sorted (by omega) (by omega)).trans hx0)
      (hx1.trans (sorted_getD_le _ h.freq_sorted (by omega) (by omega)))
  have hRc : max d.rainRateRange.1 (min d.rainRateRange.2 (d.rainRates.getD j 0)) =
      d.rainRates.getD j 0 := by
    rw [h.rain_lo, h.rain_hi]
    exact clamp_id (sorted_getD_le _ h.rain_sorted (by omega) hj)
      (sorted_getD_le _ h.rain_sorted (by omega) (by omega))
  have hFne : d.frequencies.getD i 0 ≠ d.frequencies.getD (i + 1) 0 :=
    ne_of_lt (sorted_getD_lt _ h.freq_sorted (by omega) hi)
  rcases findBracket_query_spec d.frequencies h.freq_sorted i hi x hx0 hx1 with
    ⟨hfb, hxeq, hitop⟩ | ⟨u, hfb, hu, -, -, hui⟩
  · rcases findBracket_node_spec d.rainRates h.rain_sorted j hj h.rain_two with
      ⟨hrb, -⟩ | ⟨v, hrb, hv, hvj⟩
    · rw [getAttenuationTable_eval d x _ hne hFc hRc _ _ j j hfb hrb,
        if_pos ⟨rfl, rfl⟩]
      simp only [ituQ, ituFreq]
      have hfix : d.frequencies.length - 1 = i + 1 := hitop.symm
      rw [hfix] at hxeq ⊢
      rw [hxeq, lerp_right hFne]
    · rw [getAttenuationTable_eval d x _ hne hFc hRc _ _ v (v + 1) hfb hrb,
        if_neg (by omega), if_pos rfl]
      simp only [ituQ, ituFreq, ituRain]
      rw [lerp_node_eval d.rainRates h.rain_sorted v j hv hvj
        (fun k => (d.attenuationMatrix.getD (d.frequencies.length - 1) []).getD k 0)]
      have hfix : d.frequencies.length - 1 = i + 1 := hitop.symm
      rw [hfix] at hxeq ⊢
      rw [hxeq, lerp_right hFne]
  · rcases findBracket_node_spec d.rainRates h.rain_sorted j hj h.rain_two with
      ⟨hrb, -⟩ | ⟨v, hrb, hv, hvj⟩
    · rw [getAttenuationTable_eval d x _ hne hFc hRc u (u + 1) j j hfb hrb,
        if_neg (by omega), if_neg (by omega), if_pos rfl]
      simp only [ituQ, ituFreq, ituRain]
      rcases hui with rfl | ⟨hui, hxnode⟩
      · rfl
      · subst hui
        rw [hxnode, lerp_right (ne_of_lt (sorted_getD_lt _ h.freq_sorted (by omega) hu)),
          lerp_left]
    · rw [getAttenuationTable_eval d x _ hne hFc hRc u (u + 1) v (v + 1) hfb hrb,
        if_neg (by omega), if_neg (by omega), if_neg (by omega)]
      simp only [ituQ, ituFreq, ituRain]
      rw [lerp_node_eval d.rainRates h.rain_sorted v j hv hvj
        (fun k => lerp x (d.frequencies.getD u 0) (d.frequencies.getD (u + 1) 0)
          ((d.attenuationMatrix.getD u []).getD k 0)
          ((d.attenuationMatrix.getD (u + 1) []).getD k 0))]
      rcases hui with rfl | ⟨hui, hxnode⟩
      · rfl
      · subst hui
        rw [hxnode, lerp_right (ne_of_lt (sorted_getD_lt _ h.freq_sorted (by omega) hu)),
          lerp_left]

/-- C8: for every loaded attenuation table, the lookup is a clamped bilinear
interpolation that is continuous: (1) querying exactly at a (frequency,
rain-rate) grid node returns exactly the stored value; (2,3) querying on a
grid line along one axis degenerates (value-wise) to direct linear
interpolation along the other axis; (4,5) querying at the midpoint of two
adjacent nodes along either axis returns the arithmetic mean of those two
stored values. -/
theorem attenuation_lookup_bilinear (d : IITUData) (h : ITUWellFormed d) :
    (∀ i j, i < d.frequencies.length → j < d.rainRates.length →
      getAttenuationTable d (ituFreq d i) (ituRain d j) = ituQ d i j) ∧
    (∀ i j x, i < d.frequencies.length → j + 1 < d.rainRates.length →
      ituRain d j ≤ x → x ≤ ituRain d (j + 1) →
      getAttenuationTable d (ituFreq d i) x =
        lerp x (ituRain d j) (ituRain d (j + 1)) (ituQ d i j) (ituQ d i (j + 1))) ∧
    (∀ i j x, i + 1 < d.frequencies.length → j < d.rainRates.length →
      ituFreq d i ≤ x → x ≤ ituFreq d (i + 1) →
      getAttenuationTable d x (ituRain d j) =
        lerp x (ituFreq d i) (ituFreq d (i + 1)) (ituQ d i j) (ituQ d (i + 1) j)) ∧
    (∀ i j, i < d.frequencies.length → j + 1 < d.rainRates.length →
      getAttenuationTable d (ituFreq d i) ((ituRain d j + ituRain d (j + 1)) / 2) =
        (ituQ d i j + ituQ d i (j + 1)) / 2) ∧
    (∀ i j, i + 1 < d.frequencies.length → j < d.rainRates.length →
      getAttenuationTable d ((ituFreq d i + ituFreq d (i + 1)) / 2) (ituRain d j) =
        (ituQ d i j + ituQ d (i + 1) j) / 2) := by
  refine ⟨?_, ?_, ?_, ?_, ?_⟩
  · intro i j hi hj
    by_cases hj1 : j + 1 < d.rainRates.length
    · rw [getAtt_rain_line d h i j (ituRain d j) hi hj1 (le_refl _)
        (sorted_getD_le _ h.rain_sorted (by omega) hj1), lerp_left]
    · have hjlast : 1 ≤ j := by have := h.rain_two; omega
      have hne : ituRain d (j - 1) ≠ ituRain d j :=
        ne_of_lt (sorted_getD_lt _ h.rain_sorted (by omega) hj)
      have hkey := getAtt_rain_line d h i (j - 1) (ituRain d j) hi (by omega)
        (sorted_getD_le _ h.rain_sorted (by omega) hj)
        (le_of_eq (by rw [show j - 1 + 1 = j from by omega]))
      rw [show j - 1 + 1 = j from by omega] at hkey
      rw [hkey, lerp_right hne]
  · intro i j x hi hj hx0 hx1
    exact getAtt_rain_line d h i j x hi hj hx0 hx1
  · intro i j x hi hj hx0 hx1
    exact getAtt_freq_line d h i j x hi hj hx0 hx1
  · intro i j hi hj
    have hlt : ituRain d j < ituRain d (j + 1) :=
      sorted_getD_lt _ h.rain_sorted (by omega) hj
    rw [getAtt_rain_line d h i j _ hi hj (by linarith) (by linarith),
      lerp_mid (ne_of_lt hlt)]
  · intro i j hi hj
    have hlt : ituFreq d i < ituFreq d (i + 1) :=
      sorted_getD_lt _ h.freq_sorted (by omega) hi
    rw [getAtt_freq_line d h i j _ hi hj (by linarith) (by linarith),
      lerp_mid (ne_of_lt hlt)]

/-- A small well-formed attenuation table used to witness
`attenuation_lookup_bilinear`. -/
def ituExample : IITUData where
  attenuationMatrix := [[1, 2], [3, 4]]
  frequencies := [5, 5.2]
  rainRates := [0.01, 0.1]
  frequencyRange := (5, 5.2)
  rainRateRange := (0.01, 0.1)

theorem ituExample_wellFormed : ITUWellFormed ituExample := by
  refine ⟨rfl, ?_, ?_, ?_, by norm_num [ituExample], by norm_num [ituExample],
    rfl, rfl, rfl, rfl⟩
  · intro row hrow
    fin_cases hrow <;> rfl
  · simp only [ituExample, List.chain'_cons, List.chain'_singleton, and_true]
    norm_num
  · simp only [ituExample, List.chain'_cons, List.chain'_singleton, and_true]
    norm_num

/-- Witness for `attenuation_lookup_bilinear` at the concrete table
`ituExample`. -/
theorem attenuation_lookup_bilinear_witness :
    ITUWellFormed ituExample ∧
    ((∀ i j, i < ituExample.frequencies.length → j < ituExample.rainRates.length →
      getAttenuationTable ituExample (ituFreq ituExample i) (ituRain ituExample j) =
        ituQ ituExample i j) ∧
    (∀ i j x, i < ituExample.frequencies.length →
      j + 1 < ituExample.rainRates.length →
      ituRain ituExample j ≤ x → x ≤ ituRain ituExample (j + 1) →
      getAttenuationTable ituExample (ituFreq ituExample i) x =
        lerp x (ituRain ituExample j) (ituRain ituExample (j + 1))
          (ituQ ituExample i j) (ituQ ituExample i (j + 1))) ∧
    (∀ i j x, i + 1 < ituExample.frequencies.length →
      j < ituExample.rainRates.length →
      ituFreq ituExample i ≤ x → x ≤ ituFreq ituExample (i + 1) →
      getAttenuationTable ituExample x (ituRain ituExample j) =
        lerp x (ituFreq ituExample i) (ituFreq ituExample (i + 1))
          (ituQ ituExample i j) (ituQ ituExample (i + 1) j)) ∧
    (∀ i j, i < ituExample.frequencies.length →
      j + 1 < ituExample.rainRates.length →
      getAttenuationTable ituExample (ituFreq ituExample i)
          ((ituRain ituExample j + ituRain ituExample (j + 1)) / 2) =
        (ituQ ituExample i j + ituQ ituExample i (j + 1)) / 2) ∧
    (∀ i j, i + 1 < ituExample.frequencies.length →
      j < ituExample.rainRates.length →
      getAttenuationTable ituExample
          ((ituFreq ituExample i + ituFreq ituExample (i + 1)) / 2)
          (ituRain ituExample j) =
        (ituQ ituExample i j + ituQ ituExample (i + 1) j) / 2)) :=
  ⟨ituExample_wellFormed, attenuation_lookup_bilinear ituExample ituExample_wellFormed⟩

/-! ## `src/scenario/Radar.ts` — precipitation-field sampling
(first revision in the file, lines 1–411; the claims' line references point
into this revision) -/

/-- 2-D position in km (`IPosition2D`). -/
structure IPosition2D where
  x : ℝ
  y : ℝ

/-- Scenario grid bounds (`IGridBounds`; fields used by the radar layer). -/
structure IGridBounds where
  width : ℝ
  height : ℝ
  resolution : ℝ

/-- `IPrecipitationConfig` (field used by the radar layer). -/
structure IPrecipitationConfig where
  maxRainRateCap : ℝ

/-- `IScenarioEnvironment`. -/
structure IScenarioEnvironment where
  precipitation : IPrecipitationConfig

/-- The scenario record (`IScenario`; fields used by the engagement core). -/
structure IScenarioRec where
  id : String
  grid : IGridBounds
  timeStep : ℝ
  environment : IScenarioEnvironment
  precipitationFieldImage : Option String

/-- The detailed radar model handed to `Radar` (`config.radarModel`), with
the fields the sampling path reads (`emitterPower`, `frequency`,
`noiseFloor`, `min_snr`). -/
structure IRadarModel where
  emitterPower : ℝ
  frequency : ℝ
  noiseFloor : ℝ
  min_snr : ℝ

/-- The canvas pixel data held by a `Radar` after
`loadImageDataFromScenario` (RGBA bytes, row-major). -/
structure ImageData where
  width : ℕ
  height : ℕ
  data : List ℝ

/-- The mutable state of a `Radar` instance (fields read by the detection
range computations). -/
structure RadarState where
  range : ℝ
  frequency : ℝ
  radarModel : Option IRadarModel
  ituData : Option IITUData
  imageData : Option ImageData

/-- `Radar.degToRad`. -/
def degToRad (deg : ℝ) : ℝ := deg * Real.pi / 180

/-- `Radar.getPixelIntensity(x, y, width)`: average of RGB at the pixel, `0`
past the end of the byte array.  (A negative index would read `undefined`
and poison the result with `NaN` in JS; callers guard `0 ≤ x0, y0`, so the
`0` returned here for negative indices is unreachable behind the caller's
bounds check.) -/
def getPixelIntensity (img : ImageData) (x y : ℤ) : ℝ :=
  let pixelIndex := (y * (img.width : ℤ) + x) * 4
  if img.data.length ≤ (pixelIndex + 2).toNat ∨ pixelIndex < 0 then 0
  else
    let r := img.data.getD pixelIndex.toNat 0
    let g := img.data.getD (pixelIndex + 1).toNat 0
    let b := img.data.getD (pixelIndex + 2).toNat 0
    (r + g + b) / 3

/-- `Radar.sampleRainRateBilinear(position, scenario, maxPrecipitationRate)`
(first revision, lines 345–378): `null` when no image is loaded, `0` outside
the 1-pixel interpolation border, otherwise bilinear interpolation of the
four surrounding pixel intensities mapped onto `[0, maxPrecipitationRate]`.
(The `Number.isFinite` guard always passes on ℝ.) -/
def sampleRainRateBilinear (imageData : Option ImageData) (px py : ℝ)
    (maxPrecipitationRate : ℝ) : Option ℝ :=
  match imageData with
  | none => none
  | some img =>
    some (
      if px < 0 ∨ py < 0 ∨ (img.width : ℝ) - 1 ≤ px ∨ (img.height : ℝ) - 1 ≤ py
      then 0
      else
        let x0 : ℤ := ⌊px⌋
        let y0 : ℤ := ⌊py⌋
        let x1 : ℤ := x0 + 1
        let y1 : ℤ := y0 + 1
        let fx := px - (x0 : ℝ)
        let fy := py - (y0 : ℝ)
        let intensity00 := getPixelIntensity img x0 y0
        let intensity10 := getPixelIntensity img x1 y0
        let intensity01 := getPixelIntensity img x0 y1
        let intensity11 := getPixelIntensity img x1 y1
        let intensity0 := intensity00 * (1 - fx) + intensity10 * fx
        let intensity1 := intensity01 * (1 - fx) + intensity11 * fx
        let intensity := intensity0 * (1 - fy) + intensity1 * fy
        (intensity / 255) * maxPrecipitationRate)

/-- `Radar.worldToImageCoords(position, scenario)`: throws when no image is
loaded, otherwise maps world km to pixel coordinates with the radar centred
in the image and the Y axis flipped. -/
def worldToImageCoords (imageData : Option ImageData) (position : IPosition2D)
    (grid : IGridBounds) : Except String (ℝ × ℝ) :=
  match imageData with
  | none => .error "Image data not loaded"
  | some img =>
    let pixelsPerKmWidth := (img.width : ℝ) / grid.width
    let pixelsPerKmHeight := (img.height : ℝ) / grid.height
    let pixelX := position.x * pixelsPerKmWidth + (img.width : ℝ) / 2
    let pixelY := -(position.y * pixelsPerKmHeight) + (img.height : ℝ) / 2
    .ok (pixelX, pixelY)

/-- `Radar.getSpecificAttenuation(rainRate)`: throws when the radar's own
`ituData` is unset, then defers to the `ituData` module's `getAttenuation`
(which itself throws when the module cache `cachedITUData` is unset). -/
def getSpecificAttenuation (radar : RadarState) (cachedITUData : Option IITUData)
    (rainRate : ℝ) : Except String ℝ :=
  match radar.ituData with
  | none => .error "ITU data not loaded"
  | some _ => getAttenuation cachedITUData radar.frequency rainRate

/-- `Radar.pathLoss(totalRangeKm, stepRangeKm, frequency, pathAttenuationDb)`
(first revision, lines 107–118): throws without a radar model, otherwise the
incremental two-way log-ratio loss plus the step attenuation.  (The local
`f = frequency * 1e9` of the source is unused.) -/
def pathLoss (radarModel : Option IRadarModel)
    (totalRangeKm stepRangeKm frequency pathAttenuationDb : ℝ) :
    Except String ℝ :=
  match radarModel with
  | none => .error "Radar model required for power-based calculations"
  | some _ =>
    let tRangeMeter := totalRangeKm * 1000
    let sRangeMeter := stepRangeKm * 1000
    let pathLossDb := 20 * log10 ((tRangeMeter + sRangeMeter) / tRangeMeter)
    .ok (pathLossDb + pathAttenuationDb)

/-- The step-attenuation computation of one march iteration
(`if (rainRate !== null && rainRate > 0.01) { stepAttenuationDb =
specificAttenuation * rangeStepKm }`, with `stepAttenuationDb` reset to `0`
at the top of each iteration). -/
def stepAttenuationCalc (radar : RadarState) (cachedITUData : Option IITUData)
    (rainRate : Option ℝ) (rangeStepKm : ℝ) : Except String ℝ :=
  match rainRate with
  | some r =>
    if 0.01 < r then
      match getSpecificAttenuation radar cachedITUData r with
      | .error e => .error e
      | .ok specificAttenuation => .ok (specificAttenuation * rangeStepKm)
    else .ok 0
  | none => .ok 0

/-- One iteration of the ray-march loop of
`calculateDetectionRangeWithPrecipitationFieldSampling` (first revision,
lines 250–306): sample the field at the current range, convert any rain to a
step attenuation, decay the running power, and either record the current
range as still detectable (`.ok (some (power, range))`), break
(`.ok none`), or propagate a thrown error.  (`totalAttenuationDb` is
accumulated by the source but read only by the unreachable legacy branch —
line 233 has already dereferenced `this.radarModel`, so the `radarModel`
branch of the loop is always taken.) -/
def marchIteration (radar : RadarState) (cachedITUData : Option IITUData)
    (rm : IRadarModel) (grid : IGridBounds)
    (maxPrecipitationRate : ℝ) (position : IPosition2D)
    (azRad rangeStepKm frequency : ℝ) (iray : ℕ) (currentPowerDb : ℝ) :
    Except String (Option (ℝ × ℝ)) :=
  let currentRangeKm := ((iray : ℝ) + 1) * rangeStepKm
  let offsetX := currentRangeKm * Real.cos azRad
  let offsetY := currentRangeKm * Real.sin azRad
  let worldPos : IPosition2D := ⟨position.x + offsetX, position.y + offsetY⟩
  match worldToImageCoords radar.imageData worldPos grid with
  | .error e => .error e
  | .ok imageCoords =>
    let rainRate := sampleRainRateBilinear radar.imageData imageCoords.1
      imageCoords.2 maxPrecipitationRate
    match stepAttenuationCalc radar cachedITUData rainRate rangeStepKm with
    | .error e => .error e
    | .ok stepAttenuationDb =>
      match pathLoss radar.radarModel currentRangeKm rangeStepKm frequency
          stepAttenuationDb with
      | .error e => .error e
      | .ok pl =>
        let currentPowerDb' := currentPowerDb - 2 * pl
        let snr := currentPowerDb' - rm.noiseFloor
        if rm.min_snr ≤ snr then .ok (some (currentPowerDb', currentRangeKm))
        else .ok none

/-- The ray-march loop (`for (let iray = 0; iray < NRay; iray++)`), with the
remaining iteration count as fuel: on break or exhaustion the last recorded
detectable range is returned. -/
def precipMarch (radar : RadarState) (cachedITUData : Option IITUData)
    (rm : IRadarModel) (grid : IGridBounds)
    (maxPrecipitationRate : ℝ) (position : IPosition2D)
    (azRad rangeStepKm frequency : ℝ) :
    ℕ → ℕ → ℝ → ℝ → Except String ℝ
  | _, 0, _, lastDetectableRange => .ok lastDetectableRange
  | iray, fuel + 1, currentPowerDb, lastDetectableRange =>
    match marchIteration radar cachedITUData rm grid maxPrecipitationRate
        position azRad rangeStepKm frequency iray currentPowerDb with
    | .error e => .error e
    | .ok none => .ok lastDetectableRange
    | .ok (some (currentPowerDb', currentRangeKm)) =>
      precipMarch radar cachedITUData rm grid maxPrecipitationRate position
        azRad rangeStepKm frequency (iray + 1) fuel currentPowerDb'
        currentRangeKm

/-- The `try` block of
`calculateDetectionRangeWithPrecipitationFieldSampling` (first revision,
lines 226–310): set up the march parameters (`const frequency =
this.radarModel.frequency` throws a `TypeError` when the model is `null` —
which also makes the loop's legacy branch unreachable), run the march, and
apply the final `lastDetectableRange > 0` fallback.  `maxRainRateCap || 35`
falls back on a falsy (zero) cap. -/
def fieldSamplingTryBlock (radar : RadarState) (cachedITUData : Option IITUData)
    (rcs : ℝ) (position : IPosition2D) (azimuth : ℝ) (scenario : IScenarioRec)
    (numPulses : ℝ) : Except String ℝ :=
  let pixelsPerKm := scenario.grid.resolution
  let kmPerPixel := 1 / pixelsPerKm
  let maxRangeKm := radar.range * 1.5
  let rangeStepKm := kmPerPixel * 1.0
  let NRay : ℕ := (⌈maxRangeKm / rangeStepKm⌉).toNat
  match radar.radarModel with
  | none => .error "TypeError: this.radarModel is null"
  | some rm =>
    let frequency := rm.frequency
    let fHz := frequency * 1e9
    let wavelength := 3e8 / fHz
    let maxPrecipitationRate :=
      if scenario.environment.precipitation.maxRainRateCap = 0 then 35
      else scenario.environment.precipitation.maxRainRateCap
    let sysPower := rm.emitterPower
    let currentPowerDb := sysPower - 20 * log10 ((4 * Real.pi) / wavelength)
    let azRad := degToRad azimuth
    let lastDetectableRange := rangeStepKm
    match precipMarch radar cachedITUData rm scenario.grid
        maxPrecipitationRate position azRad rangeStepKm frequency 0 NRay
        currentPowerDb lastDetectableRange with
    | .error e => .error e
    | .ok v =>
      .ok (if 0 < v then v else calculateDetectionRange rcs numPulses radar.range)

/-- `Radar.calculateDetectionRangeWithPrecipitationFieldSampling(rcs,
position, azimuth, scenario, numPulses)` (first revision, lines 214–316):
free-space range when the scenario has no precipitation-field image,
otherwise the `try` block with any thrown error caught and replaced by the
free-space range. -/
def calculateDetectionRangeWithPrecipitationFieldSampling (radar : RadarState)
    (cachedITUData : Option IITUData) (rcs : ℝ) (position : IPosition2D)
    (azimuth : ℝ) (scenario : IScenarioRec) (numPulses : ℝ) : ℝ :=
  match scenario.precipitationFieldImage with
  | none => calculateDetectionRange rcs numPulses radar.range
  | some _ =>
    match fieldSamplingTryBlock radar cachedITUData rcs position azimuth
        scenario numPulses with
    | .error _ => calculateDetectionRange rcs numPulses radar.range
    | .ok v => v

/-- C9: the attenuation-sampling detection-range computation never
propagates an error — with no precipitation field it returns the
unattenuated free-space range directly (no marching), and when the `try`
body throws (for example, image data or the attenuation table not loaded)
the same unattenuated free-space range is returned. -/
theorem fieldSampling_never_propagates_errors (radar : RadarState)
    (cachedITUData : Option IITUData) (rcs : ℝ) (position : IPosition2D)
    (azimuth : ℝ) (scenario : IScenarioRec) (numPulses : ℝ) :
    (scenario.precipitationFieldImage = none →
      calculateDetectionRangeWithPrecipitationFieldSampling radar cachedITUData
          rcs position azimuth scenario numPulses =
        calculateDetectionRange rcs numPulses radar.range) ∧
    (∀ e, fieldSamplingTryBlock radar cachedITUData rcs position azimuth
        scenario numPulses = .error e →
      calculateDetectionRangeWithPrecipitationFieldSampling radar cachedITUData
          rcs position azimuth scenario numPulses =
        calculateDetectionRange rcs numPulses radar.range) := by
  constructor
  · intro h
    unfold calculateDetectionRangeWithPrecipitationFieldSampling
    rw [h]
  · intro e he
    unfold calculateDetectionRangeWithPrecipitationFieldSampling
    cases himg : scenario.precipitationFieldImage with
    | none => rfl
    | some s => rw [he]

/-- Radar model for the degraded-sampling witness configurations. -/
def rmC9 : IRadarModel where
  emitterPower := 0
  frequency := 1
  noiseFloor := 0
  min_snr := 0

/-- A radar with a model but no loaded image data: the march throws on its
first iteration. -/
def radarC9 : RadarState where
  range := 1
  frequency := 1
  radarModel := some rmC9
  ituData := none
  imageData := none

/-- A scenario carrying a precipitation-field image name. -/
def scenC9 : IScenarioRec where
  id := "s9"
  grid := { width := 10, height := 10, resolution := 1 }
  timeStep := 1
  environment := { precipitation := { maxRainRateCap := 35 } }
  precipitationFieldImage := some "field.jpg"

/-- `scenC9` without the precipitation-field image. -/
def scenC9none : IScenarioRec :=
  { scenC9 with precipitationFieldImage := none }

theorem radarC9_model : radarC9.radarModel = some rmC9 := rfl

theorem radarC9_image : radarC9.imageData = none := rfl

/-- With no image data loaded, the `try` body of the sampling computation
throws on the first march step. -/
theorem fieldSamplingTryBlock_C9_errors :
    fieldSamplingTryBlock radarC9 none 1 ⟨0, 0⟩ 0 scenC9 1 =
      .error "Image data not loaded" := by
  have hN : (⌈radarC9.range * 1.5 / (1 / scenC9.grid.resolution * 1.0)⌉).toNat = 2 := by
    rw [show ⌈radarC9.range * 1.5 / (1 / scenC9.grid.resolution * 1.0)⌉ = 2 from by
      rw [show radarC9.range = (1 : ℝ) from rfl,
        show scenC9.grid.resolution = (1 : ℝ) from rfl, Int.ceil_eq_iff] <;> norm_num]
    rfl
  simp only [fieldSamplingTryBlock, radarC9_model]
  rw [hN, show (2 : ℕ) = 1 + 1 from rfl]
  simp only [precipMarch, marchIteration, radarC9_image, worldToImageCoords]

/-- Witness for `fieldSampling_never_propagates_errors`: with no
precipitation field the free-space range is returned, and with a field whose
image data failed to load the march throws and the free-space range is still
returned. -/
theorem fieldSampling_never_propagates_errors_witness :
    (scenC9none.precipitationFieldImage = none ∧
      calculateDetectionRangeWithPrecipitationFieldSampling radarC9 none 1
          ⟨0, 0⟩ 0 scenC9none 1 = calculateDetectionRange 1 1 radarC9.range) ∧
    (fieldSamplingTryBlock radarC9 none 1 ⟨0, 0⟩ 0 scenC9 1 =
        .error "Image data not loaded" ∧
      calculateDetectionRangeWithPrecipitationFieldSampling radarC9 none 1
          ⟨0, 0⟩ 0 scenC9 1 = calculateDetectionRange 1 1 radarC9.range) :=
  ⟨⟨rfl, (fieldSampling_never_propagates_errors radarC9 none 1 ⟨0, 0⟩ 0
      scenC9none 1).1 rfl⟩,
   ⟨fieldSamplingTryBlock_C9_errors,
    (fieldSampling_never_propagates_errors radarC9 none 1 ⟨0, 0⟩ 0 scenC9 1).2
      _ fieldSamplingTryBlock_C9_errors⟩⟩

/-- A continuing march iteration records exactly the current range
`(iray + 1) * rangeStepKm`. -/
theorem marchIteration_continue (radar : RadarState)
    (cachedITUData : Option IITUData) (rm : IRadarModel) (grid : IGridBounds)
    (maxPrecipitationRate : ℝ) (position : IPosition2D)
    (azRad rangeStepKm frequency : ℝ) (iray : ℕ) (P Pn r : ℝ)
    (h : marchIteration radar cachedITUData rm grid maxPrecipitationRate
      position azRad rangeStepKm frequency iray P = .ok (some (Pn, r))) :
    r = ((iray : ℝ) + 1) * rangeStepKm := by
  simp only [marchIteration] at h
  split at h
  · exact absurd h (by simp)
  · split at h
    · exact absurd h (by simp)
    · split at h
      · exact absurd h (by simp)
      · split at h
        · simp only [Except.ok.injEq, Option.some.injEq, Prod.mk.injEq] at h
          exact h.2.symm
        · exact absurd h (by simp)

/-- Loop invariant of the ray march: a normally returned range is bounded by
the initial `lastDetectableRange` or by the full marched distance. -/
theorem precipMarch_ok_le (radar : RadarState) (cachedITUData : Option IITUData)
    (rm : IRadarModel) (grid : IGridBounds) (maxPrecipitationRate : ℝ)
    (position : IPosition2D) (azRad rangeStepKm frequency : ℝ)
    (hstep : 0 ≤ rangeStepKm) :
    ∀ fuel iray P last v,
      precipMarch radar cachedITUData rm grid maxPrecipitationRate position
          azRad rangeStepKm frequency iray fuel P last = .ok v →
      v ≤ max last (((iray + fuel : ℕ) : ℝ) * rangeStepKm) := by
  intro fuel
  induction fuel with
  | zero =>
    intro iray P last v h
    simp only [precipMarch, Except.ok.injEq] at h
    subst h
    exact le_max_left _ _
  | succ fuel ih =>
    intro iray P last v h
    simp only [precipMarch] at h
    cases hit : marchIteration radar cachedITUData rm grid maxPrecipitationRate
        position azRad rangeStepKm frequency iray P with
    | error e => rw [hit] at h; exact absurd h (by simp)
    | ok o =>
      rw [hit] at h
      cases o with
      | none =>
        simp only [Except.ok.injEq] at h
        subst h
        exact le_max_left _ _
      | some pr =>
        obtain ⟨Pn, r⟩ := pr
        have hr : r = ((iray : ℝ) + 1) * rangeStepKm :=
          marchIteration_continue radar cachedITUData rm grid
            maxPrecipitationRate position azRad rangeStepKm frequency iray
            P Pn r hit
        refine le_trans (ih (iray + 1) Pn r v h) (max_le ?_ ?_)
        · rw [hr]
          refine le_max_of_le_right (mul_le_mul_of_nonneg_right ?_ hstep)
          push_cast
          linarith
        · refine le_max_of_le_right (mul_le_mul_of_nonneg_right ?_ hstep)
          push_cast
          linarith

/-- C2 (amended): the precipitation-sampling detection range is either the
unattenuated free-space fallback or a marched range bounded by the march cap
(one ray step times the larger of one and `NRay = ⌈1.5·range/step⌉`); the
power march ignores the RCS and the pulse count, so it is *not* in general
bounded by the free-space detection range for the same RCS and pulse count
(see `attenuatedRange_can_exceed_freespace`). -/
theorem attenuatedRange_fallback_or_march_bound (radar : RadarState)
    (cachedITUData : Option IITUData) (rcs : ℝ) (position : IPosition2D)
    (azimuth : ℝ) (scenario : IScenarioRec) (numPulses : ℝ)
    (hres : 0 ≤ scenario.grid.resolution) :
    calculateDetectionRangeWithPrecipitationFieldSampling radar cachedITUData
        rcs position azimuth scenario numPulses =
      calculateDetectionRange rcs numPulses radar.range ∨
    calculateDetectionRangeWithPrecipitationFieldSampling radar cachedITUData
        rcs position azimuth scenario numPulses ≤
      max (1 / scenario.grid.resolution * 1.0)
        (((⌈radar.range * 1.5 / (1 / scenario.grid.resolution * 1.0)⌉).toNat : ℝ) *
          (1 / scenario.grid.resolution * 1.0)) := by
  have hstep : (0 : ℝ) ≤ 1 / scenario.grid.resolution * 1.0 := by positivity
  unfold calculateDetectionRangeWithPrecipitationFieldSampling
  cases himg : scenario.precipitationFieldImage with
  | none => exact Or.inl rfl
  | some s =>
    cases htry : fieldSamplingTryBlock radar cachedITUData rcs position azimuth
        scenario numPulses with
    | error e => exact Or.inl rfl
    | ok v =>
      simp only [fieldSamplingTryBlock] at htry
      cases hrm : radar.radarModel with
      | none => rw [hrm] at htry; exact absurd htry (by simp)
      | some rm =>
        simp only [hrm] at htry
        split at htry
        · exact absurd htry (by simp)
        · rename_i v0 hm
          simp only [Except.ok.injEq] at htry
          by_cases hv0 : 0 < v0
          · rw [if_pos hv0] at htry
            subst htry
            refine Or.inr (le_trans (precipMarch_ok_le radar cachedITUData rm
              scenario.grid _ position (degToRad azimuth) _ rm.frequency hstep
              _ 0 _ _ v0 hm) ?_)
            simp only [Nat.zero_add]
            exact le_refl _
          · rw [if_neg hv0] at htry
            subst htry
            exact Or.inl rfl

/-! ### C2 counterexample configuration: a demanding SNR threshold breaks the
march on its first step, returning the initial one-step range, while a small
RCS makes the free-space detection range smaller than that. -/

def rmC2 : IRadarModel where
  emitterPower := 0
  frequency := 1
  noiseFloor := 0
  min_snr := 1000

def imgC2 : ImageData where
  width := 2
  height := 2
  data := List.replicate 16 0

def radarC2 : RadarState where
  range := 1
  frequency := 1
  radarModel := some rmC2
  ituData := none
  imageData := some imgC2

def scenC2 : IScenarioRec where
  id := "s2"
  grid := { width := 100, height := 100, resolution := 1 }
  timeStep := 1
  environment := { precipitation := { maxRainRateCap := 35 } }
  precipitationFieldImage := some "field.jpg"

theorem radarC2_model : radarC2.radarModel = some rmC2 := rfl

theorem radarC2_image : radarC2.imageData = some imgC2 := rfl

/-- On the C2 configuration the first march step already fails the SNR
threshold, so the march breaks immediately. -/
theorem marchIteration_C2 (P : ℝ) (hP : P ≤ 0) :
    marchIteration radarC2 none rmC2 scenC2.grid
      (if scenC2.environment.precipitation.maxRainRateCap = 0 then 35
        else scenC2.environment.precipitation.maxRainRateCap)
      ⟨0, 0⟩ (degToRad 0) (1 / scenC2.grid.resolution * 1.0) rmC2.frequency 0
      P = .ok none := by
  have hc : Real.cos (degToRad 0) = 1 := by simp [degToRad]
  have hs : Real.sin (degToRad 0) = 0 := by simp [degToRad]
  simp only [marchIteration, radarC2_image, worldToImageCoords,
    sampleRainRateBilinear, stepAttenuationCalc, hc, hs]
  norm_num [scenC2, imgC2, rmC2, pathLoss, radarC2]
  intro hcon
  have hlog : (0 : ℝ) < log10 2 := by
    rw [log10]
    exact Real.logb_pos (by norm_num) (by norm_num)
  linarith

theorem one_sixteenth_rpow_quarter : ((1 / 16 : ℝ)) ^ (0.25 : ℝ) = 1 / 2 := by
  rw [show (1 / 16 : ℝ) = 2 ^ (-4 : ℝ) by
    rw [Real.rpow_neg (by norm_num), show (4 : ℝ) = ((4 : ℕ) : ℝ) by norm_num,
      Real.rpow_natCast]
    norm_num]
  rw [← Real.rpow_mul (by norm_num), show (-4 : ℝ) * 0.25 = -1 by norm_num,
    Real.rpow_neg_one]
  norm_num

/-- On the C2 configuration the `try` block returns the one-step initial
range (1 km). -/
theorem fieldSamplingTryBlock_C2 :
    fieldSamplingTryBlock radarC2 none (1 / 16) ⟨0, 0⟩ 0 scenC2 1 = .ok 1 := by
  have hN : (⌈radarC2.range * 1.5 / (1 / scenC2.grid.resolution * 1.0)⌉).toNat = 2 := by
    rw [show ⌈radarC2.range * 1.5 / (1 / scenC2.grid.resolution * 1.0)⌉ = 2 from by
      rw [show radarC2.range = (1 : ℝ) from rfl,
        show scenC2.grid.resolution = (1 : ℝ) from rfl, Int.ceil_eq_iff] <;> norm_num]
    rfl
  have hP : rmC2.emitterPower -
      20 * log10 (4 * Real.pi / (3e8 / (rmC2.frequency * 1e9))) ≤ 0 := by
    rw [show rmC2.emitterPower = (0 : ℝ) from rfl,
      show rmC2.frequency = (1 : ℝ) from rfl]
    have hlog : (0 : ℝ) ≤ log10 (4 * Real.pi / (3e8 / (1 * 1e9))) := by
      rw [log10]
      apply Real.logb_nonneg (by norm_num)
      rw [show (3e8 : ℝ) / (1 * 1e9) = 0.3 by norm_num,
        le_div_iff₀ (by norm_num : (0 : ℝ) < 0.3)]
      nlinarith [Real.pi_gt_three]
    linarith
  simp only [fieldSamplingTryBlock, radarC2_model]
  rw [hN, show (2 : ℕ) = 1 + 1 from rfl]
  simp only [precipMarch]
  rw [marchIteration_C2 _ hP]
  norm_num [scenC2]

/-- C2 counterexample: on the configuration above the sampled detection
range is 1 km while the free-space detection range for the same RCS (1/16
m²) and pulse count is 0.5 km, so the sampled range is *not* bounded by the
free-space range. -/
theorem attenuatedRange_can_exceed_freespace :
    calculateDetectionRangeWithPrecipitationFieldSampling radarC2 none (1 / 16)
        ⟨0, 0⟩ 0 scenC2 1 = 1 ∧
    calculateDetectionRange (1 / 16) 1 radarC2.range = 1 / 2 ∧
    ¬ (calculateDetectionRangeWithPrecipitationFieldSampling radarC2 none
          (1 / 16) ⟨0, 0⟩ 0 scenC2 1 ≤
        calculateDetectionRange (1 / 16) 1 radarC2.range) := by
  have h1 : calculateDetectionRangeWithPrecipitationFieldSampling radarC2 none
      (1 / 16) ⟨0, 0⟩ 0 scenC2 1 = 1 := by
    simp only [calculateDetectionRangeWithPrecipitationFieldSampling,
      show scenC2.precipitationFieldImage = some "field.jpg" from rfl,
      fieldSamplingTryBlock_C2]
  have h2 : calculateDetectionRange (1 / 16) 1 radarC2.range = 1 / 2 := by
    rw [show radarC2.range = (1 : ℝ) from rfl, calculateDetectionRange_one_pulse,
      one_sixteenth_rpow_quarter]
    norm_num
  refine ⟨h1, h2, ?_⟩
  rw [h1, h2]
  norm_num

/-- Witness for `attenuatedRange_fallback_or_march_bound` at the C2
configuration. -/
theorem attenuatedRange_fallback_or_march_bound_witness :
    (0 ≤ scenC2.grid.resolution) ∧
    (calculateDetectionRangeWithPrecipitationFieldSampling radarC2 none (1 / 16)
          ⟨0, 0⟩ 0 scenC2 1 =
        calculateDetectionRange (1 / 16) 1 radarC2.range ∨
      calculateDetectionRangeWithPrecipitationFieldSampling radarC2 none (1 / 16)
          ⟨0, 0⟩ 0 scenC2 1 ≤
        max (1 / scenC2.grid.resolution * 1.0)
          (((⌈radarC2.range * 1.5 / (1 / scenC2.grid.resolution * 1.0)⌉).toNat : ℝ) *
            (1 / scenC2.grid.resolution * 1.0))) :=
  ⟨by norm_num [scenC2],
   attenuatedRange_fallback_or_march_bound radarC2 none (1 / 16) ⟨0, 0⟩ 0 scenC2 1
     (by norm_num [scenC2])⟩

/-! ## `src/scenario/Scenario.ts`, `SAMSystem.ts`, `Fighter.ts` — the
time-stepped engagement coordinator.

JS object identity is modelled by indices: a missile's live `target`
reference becomes a `TargetRef` index into the coordinator's platform lists
(the spec's §9 lookup-by-identity reformulation), and JS `Map` becomes an
insertion-ordered association list with unique keys. -/

inductive PlatformLifeState where
  | active | destroyed
deriving DecidableEq

inductive TrackStatus where
  | tracking | not_tracking | lost
deriving DecidableEq

inductive MissileStatus where
  | active | kill | missed
deriving DecidableEq

inductive TLaunchedBy where
  | sam | fighter
deriving DecidableEq

/-- `missile.target: SAMSystem | Fighter` as an index into the
coordinator's `scenarioSams` / `scenarioFighters` lists. -/
inductive TargetRef where
  | samRef (i : ℕ) | fighterRef (i : ℕ)
deriving DecidableEq

/-- `Track` (SAMSystem.ts lines 21–28). -/
structure Track where
  id : String
  acquisitionTime : ℝ
  distance : ℝ
  azimuth : ℝ
  status : TrackStatus
  timeElapsedTracking : ℝ

/-- `SAMStatus` (SAMSystem.ts lines 13–18). -/
structure SAMStatus where
  missilesRemaining : ℕ
  launchedMissiles : ℕ
  totalMissiles : ℕ
  lastLaunchTime : ℝ

/-- `IRCSProfile`. -/
structure IRCSProfile where
  nose : ℝ
  tail : ℝ
  side : ℝ
  top : ℝ
  bottom : ℝ

/-- The `ISAMSystem` configuration fields the engagement step reads through
`samSystem.properties`. -/
structure ISAMSystemProps where
  memr : ℝ
  autoAcquisitionTime : ℝ

/-- `SAMSystem` runtime state (fields read or written by the engagement
step).  `missileVelocity` is the field the scenario step reads as
`samSystem.missileVelocity`; it is declared on the earlier `SAMSystem`
revision (a `readonly` class field) and absent from the latest one, where
the read would produce `undefined`/`NaN` — the embedding keeps it as an
uninterpreted real so both behaviours are covered by quantification. -/
structure SAMSystem where
  id : String
  properties : ISAMSystemProps
  missileVelocity : ℝ
  trackedTargets : List (String × Track)
  state : PlatformLifeState
  ranges : List ℝ
  launchIntervalSec : ℝ
  position : IPosition2D
  status : SAMStatus

/-- The fighter maneuver mode (`'none' | 'evasive'`). -/
inductive TManeuvers where
  | noManeuver | evasive
deriving DecidableEq

/-- `Fighter` runtime state (fields read or written by the engagement
step). -/
structure Fighter where
  id : String
  position : IPosition2D
  velocity : ℝ
  rcs : IRCSProfile
  harmVelocity : ℝ
  harmRange : ℝ
  heading : ℝ
  missilesRemaining : ℕ
  state : PlatformLifeState
  maneuvers : TManeuvers

/-- `TMissile` (Scenario.ts lines 306–316). -/
structure TMissile where
  position : IPosition2D
  velocity : ℝ
  heading : ℝ
  status : MissileStatus
  launchedBy : TLaunchedBy
  timeOfLaunch : ℝ
  timeOfImpact : ℝ
  maxRange : Option ℝ
  target : TargetRef

/-- The mutable state of one `Scenario` instance. -/
structure ScenarioState where
  id : String
  timeStep : ℝ
  timeElapsed : ℝ
  scenarioSams : List SAMSystem
  scenarioFighters : List Fighter
  missiles : List TMissile
  isEngagementComplete : Bool

/-- `createMissile` (Scenario.ts lines 319–331). -/
def createMissile (position : IPosition2D) (velocity heading : ℝ)
    (launchedBy : TLaunchedBy) (timeOfLaunch : ℝ) (target : TargetRef)
    (maxRange : Option ℝ) : TMissile :=
  { position := position
    velocity := velocity
    heading := heading
    status := .active
    launchedBy := launchedBy
    timeOfLaunch := timeOfLaunch
    timeOfImpact := 0
    maxRange := maxRange
    target := target }

def MAX_SIMULATION_TIME : ℝ := 600

/-! ### JS `Map` as an insertion-ordered association list -/

def mapGet (m : List (String × Track)) (k : String) : Option Track :=
  (m.find? (fun p => p.1 == k)).map (·.2)

/-- `Map.set`: replace in place when the key exists, append otherwise. -/
def mapSet (m : List (String × Track)) (k : String) (v : Track) :
    List (String × Track) :=
  if (m.find? (fun p => p.1 == k)).isSome then
    m.map (fun p => if p.1 == k then (k, v) else p)
  else m ++ [(k, v)]

def mapDelete (m : List (String × Track)) (k : String) : List (String × Track) :=
  m.filter (fun p => !(p.1 == k))

/-! ### Platform methods -/

/-- `SAMSystem.getAzimuthToTarget` / `Fighter.getAzimuthToTarget`
(identical bodies): bearing in degrees, normalized to `[0, 360)`. -/
def getAzimuthToTargetFrom (selfPosition targetPosition : IPosition2D) : ℝ :=
  let deltaX := targetPosition.x - selfPosition.x
  let deltaY := targetPosition.y - selfPosition.y
  let azimuthRad := jsAtan2 deltaY deltaX
  let azimuthDeg := azimuthRad * (180 / Real.pi)
  if azimuthDeg < 0 then azimuthDeg + 360 else azimuthDeg

def SAMSystem.getAzimuthToTarget (sam : SAMSystem) (targetPosition : IPosition2D) : ℝ :=
  getAzimuthToTargetFrom sam.position targetPosition

def Fighter.getAzimuthToTarget (f : Fighter) (targetPos : IPosition2D) : ℝ :=
  getAzimuthToTargetFrom f.position targetPos

/-- `SAMSystem.getDetectionRanges`: the precomputed per-azimuth ranges run
through `calculateDetectionRange(1.0, 1.0, nominalRange)`. -/
def SAMSystem.getDetectionRanges (sam : SAMSystem) : List ℝ :=
  sam.ranges.map (fun nominalRange => calculateDetectionRange 1.0 1.0 nominalRange)

/-- `SAMSystem.getRangeAtAzimuth`: round the azimuth to the nearest bucket
(`Math.round(((az % 360) / 360) * numAzimuths) % numAzimuths`; the JS `%`
truncates toward zero, hence `Int.tmod`; a negative index — impossible for
the `[0,360)` azimuths produced by `getAzimuthToTarget` — would read
`undefined` in JS and indexes the default `0` here). -/
def SAMSystem.getRangeAtAzimuth (sam : SAMSystem) (azimuthDeg : ℝ) : ℝ :=
  let azimuths := sam.getDetectionRanges
  let numAzimuths := azimuths.length
  let azimuthIndex :=
    Int.tmod (jsRound (jsMod azimuthDeg 360 / 360 * (numAzimuths : ℝ))) (numAzimuths : ℤ)
  azimuths.getD azimuthIndex.toNat 0

/-- `Fighter.getRCSAtAspect` (Fighter.ts): aspect bucketing in degrees,
nose `±30°`, tail `180°±30°`, side otherwise. -/
def Fighter.getRCSAtAspect (f : Fighter) (azimuthDeg : ℝ) : ℝ :=
  let angle := jsMod (jsMod azimuthDeg 360 + 360) 360
  if angle < 30 ∨ 330 < angle then f.rcs.nose
  else if 150 < angle ∧ angle < 210 then f.rcs.tail
  else f.rcs.side

/-- `Fighter.getRCSFromPosition`. -/
def Fighter.getRCSFromPosition (f : Fighter) (fighterPos observerPos : IPosition2D)
    (fighterHeadingDeg : ℝ) : ℝ :=
  let dx := observerPos.x - fighterPos.x
  let dy := observerPos.y - fighterPos.y
  let angleToObserver := jsAtan2 dy dx
  let relativeAspect := angleToObserver - fighterHeadingDeg
  f.getRCSAtAspect relativeAspect

/-- `Scenario.wrapToPi`: `atan2(sin a, cos a)`. -/
def wrapToPi (a : ℝ) : ℝ := jsAtan2 (Real.sin a) (Real.cos a)

/-- `Scenario.updateHeading`. -/
def updateHeading (prev current : ℝ) : ℝ := prev + wrapToPi (current - prev)

/-! ### The nine sub-steps of `advanceSimulationTimeStep` -/

/-- The body of `updateSAMTrackingStatus`'s inner loop for one
(SAM, fighter) pair (Scenario.ts lines 441–473): upsert the track while the
distance is within the instantaneous detection range at the fighter's
azimuth, delete it otherwise. -/
def trackingUpdateForFighter (timeStep timeElapsed : ℝ) (sam : SAMSystem)
    (fighter : Fighter) : SAMSystem :=
  let distance := Real.sqrt ((fighter.position.x - sam.position.x) ^ 2 +
    (fighter.position.y - sam.position.y) ^ 2)
  let azimuth := sam.getAzimuthToTarget fighter.position
  let rcs := fighter.getRCSFromPosition fighter.position sam.position fighter.heading
  let pulses : ℝ := 1
  let range := sam.getRangeAtAzimuth azimuth
  let detectionRange := calculateDetectionRange rcs pulses range
  if distance ≤ detectionRange then
    match mapGet sam.trackedTargets fighter.id with
    | some retObj =>
      let refreshed : Track :=
        { retObj with
          timeElapsedTracking := retObj.timeElapsedTracking + timeStep
          distance := distance
          azimuth := azimuth
          status := .tracking }
      { sam with trackedTargets := mapSet sam.trackedTargets fighter.id refreshed }
    | none =>
      let created : Track :=
        { id := fighter.id
          acquisitionTime := timeElapsed
          distance := distance
          azimuth := azimuth
          status := .tracking
          timeElapsedTracking := timeStep }
      { sam with trackedTargets := mapSet sam.trackedTargets fighter.id created }
  else
    { sam with trackedTargets := mapDelete sam.trackedTargets fighter.id }

/-- `Scenario.updateSAMTrackingStatus` (lines 437–477). -/
def updateSAMTrackingStatus (s : ScenarioState) : ScenarioState :=
  { s with scenarioSams := s.scenarioSams.map (fun samSystem =>
      s.scenarioFighters.foldl (trackingUpdateForFighter s.timeStep s.timeElapsed)
        samSystem) }

/-- One tracked-target iteration of `SAMDetectionAndEngagementLogic`
(lines 483–506): launch a site missile at the tracked fighter when it is
within MEMR, acquisition has matured, the launch interval has elapsed, and
interceptors remain. -/
def samLaunchForTrack (timeElapsed : ℝ) (fighters : List Fighter)
    (acc : SAMSystem × List TMissile) (entry : String × Track) :
    SAMSystem × List TMissile :=
  let samSystem := acc.1
  let missiles := acc.2
  let targetId := entry.1
  let track := entry.2
  match fighters.findIdx? (fun f => f.id == targetId) with
  | none => acc
  | some idx =>
    match fighters.get? idx with
    | none => acc
    | some targetFighter =>
      let distance := track.distance
      if distance ≤ samSystem.properties.memr then
        let timeSinceLastLaunch := timeElapsed - samSystem.status.lastLaunchTime
        if track.timeElapsedTracking ≥ samSystem.properties.autoAcquisitionTime ∧
            timeSinceLastLaunch ≥ samSystem.launchIntervalSec then
          if 0 < samSystem.status.missilesRemaining then
            let speedOfSound : ℝ := 343
            let missileVelocityKmS := samSystem.missileVelocity * speedOfSound / 1000
            let azimuth := samSystem.getAzimuthToTarget targetFighter.position
            let missilePosition : IPosition2D :=
              ⟨samSystem.position.x, samSystem.position.y⟩
            ({ samSystem with status :=
                { samSystem.status with
                  missilesRemaining := samSystem.status.missilesRemaining - 1
                  lastLaunchTime := timeElapsed } },
             missiles ++ [createMissile missilePosition missileVelocityKmS azimuth
               .sam timeElapsed (.fighterRef idx) (some samSystem.properties.memr)])
          else acc
        else acc
      else acc

/-- `Scenario.SAMDetectionAndEngagementLogic` (lines 480–508). -/
def SAMDetectionAndEngagementLogic (s : ScenarioState) : ScenarioState :=
  let res := s.scenarioSams.foldl
    (fun (acc : List SAMSystem × List TMissile) samSystem =>
      let inner := samSystem.trackedTargets.foldl
        (samLaunchForTrack s.timeElapsed s.scenarioFighters) (samSystem, acc.2)
      (acc.1 ++ [inner.1], inner.2))
    ([], s.missiles)
  { s with scenarioSams := res.1, missiles := res.2 }

/-- One SAM iteration of `fighterLaunchHARMLogic` (lines 514–528): a fighter
within HARM range of a site that is tracking *anything* launches a HARM at
it while weapons remain. -/
def harmLaunchForSam (timeElapsed : ℝ) (acc : Fighter × List TMissile)
    (samEntry : ℕ × SAMSystem) : Fighter × List TMissile :=
  let fighter := acc.1
  let missiles := acc.2
  let samIdx := samEntry.1
  let samSystem := samEntry.2
  let distance := Real.sqrt ((fighter.position.x - samSystem.position.x) ^ 2 +
    (fighter.position.y - samSystem.position.y) ^ 2)
  if distance ≤ fighter.harmRange then
    if 0 < samSystem.trackedTargets.length ∧ 0 < fighter.missilesRemaining then
      let speedOfSound : ℝ := 343
      let harmVelocityKmS := fighter.harmVelocity * speedOfSound / 1000
      let azimuth := fighter.getAzimuthToTarget samSystem.position
      let missilePosition : IPosition2D := ⟨fighter.position.x, fighter.position.y⟩
      ({ fighter with missilesRemaining := fighter.missilesRemaining - 1 },
       missiles ++ [createMissile missilePosition harmVelocityKmS azimuth
         .fighter timeElapsed (.samRef samIdx) none])
    else acc
  else acc

/-- `Scenario.fighterLaunchHARMLogic` (lines 511–530). -/
def fighterLaunchHARMLogic (s : ScenarioState) : ScenarioState :=
  let res := s.scenarioFighters.foldl
    (fun (acc : List Fighter × List TMissile) fighter =>
      let inner := s.scenarioSams.enum.foldl (harmLaunchForSam s.timeElapsed)
        (fighter, acc.2)
      (acc.1 ++ [inner.1], inner.2))
    ([], s.missiles)
  { s with scenarioFighters := res.1, missiles := res.2 }

/-- The current position of a missile's live target reference. -/
def targetPosition (s : ScenarioState) (t : TargetRef) : IPosition2D :=
  match t with
  | .samRef i => ((s.scenarioSams.get? i).map (·.position)).getD ⟨0, 0⟩
  | .fighterRef i => ((s.scenarioFighters.get? i).map (·.position)).getD ⟨0, 0⟩

/-- `(missile.target as Fighter).id` — the identity the guidance loop looks
up in the SAM track maps. -/
def targetRefId (s : ScenarioState) (t : TargetRef) : String :=
  match t with
  | .samRef i => ((s.scenarioSams.get? i).map (·.id)).getD ""
  | .fighterRef i => ((s.scenarioFighters.get? i).map (·.id)).getD ""

/-- The body of `updateMissileTracking` for one missile (lines 539–576);
`rand i` stands for the draw `Math.random() * 2 - 1` of the i-th missile. -/
def updateMissileTrackingOne (s : ScenarioState) (anglePerturbationRad : ℝ)
    (rand : ℕ → ℝ) (im : ℕ × TMissile) : TMissile :=
  let i := im.1
  let missile := im.2
  if missile.status ≠ .active then missile
  else
    let isTracking : Bool :=
      match missile.launchedBy with
      | .sam => s.scenarioSams.any (fun sam =>
          (mapGet sam.trackedTargets (targetRefId s missile.target)).isSome)
      | .fighter => true
    if !isTracking then
      { missile with heading := missile.heading + rand i * anglePerturbationRad }
    else
      let tpos := targetPosition s missile.target
      let dx := tpos.x - missile.position.x
      let dy := tpos.y - missile.position.y
      let currentHeading := jsAtan2 dy dx
      let prevHeading := missile.heading
      let updated := updateHeading prevHeading currentHeading
      let headingDiff := updated - prevHeading
      let velMetersPerSec := missile.velocity * 343
      let maxGForce : ℝ := 9.8 * 30
      let maxTurnRate := maxGForce / velMetersPerSec
      if |headingDiff| > maxTurnRate * s.timeStep then
        { missile with heading := missile.heading +
            (maxTurnRate * s.timeStep) * (if 0 < headingDiff then 1 else -1) }
      else
        { missile with heading := updated }

/-- `Scenario.updateMissileTracking` (lines 536–577). -/
def updateMissileTracking (rand : ℕ → ℝ) (s : ScenarioState) : ScenarioState :=
  let anglePerturbationRad := Real.pi / 180 * 5
  { s with missiles :=
      s.missiles.enum.map (updateMissileTrackingOne s anglePerturbationRad rand) }

/-- `Scenario.updateMissilePositions` (lines 582–590). -/
def updateMissilePositions (s : ScenarioState) : ScenarioState :=
  { s with missiles := s.missiles.map (fun missile =>
      if missile.status = .active then
        { missile with position :=
            ⟨missile.position.x + missile.velocity * Real.cos missile.heading * s.timeStep,
             missile.position.y + missile.velocity * Real.sin missile.heading * s.timeStep⟩ }
      else missile) }

/-- `Scenario.updateFighterManeuvers` (lines 595–634).  (JS starts the
nearest-SAM search from `minDistance = Infinity`, so the first site always
replaces the empty accumulator; finite-position distances are always below
`Infinity`.) -/
def updateFighterManeuvers (s : ScenarioState) : ScenarioState :=
  { s with scenarioFighters := s.scenarioFighters.map (fun fighter =>
      if fighter.maneuvers = .evasive then
        let nearest := s.scenarioSams.foldl
          (fun (acc : Option SAMSystem × ℝ) sam =>
            let dx := sam.position.x - fighter.position.x
            let dy := sam.position.y - fighter.position.y
            let distance := Real.sqrt (dx * dx + dy * dy)
            match acc.1 with
            | none => (some sam, distance)
            | some _ => if distance < acc.2 then (some sam, distance) else acc)
          (none, 0)
        match nearest.1 with
        | none => fighter
        | some nearestSAM =>
          let maxGForce : ℝ := 9.8 * 6
          let velMetersPerSec := fighter.velocity * 343
          let maxTurnRate := maxGForce / velMetersPerSec
          let angleToSAMRad := jsAtan2 (nearestSAM.position.y - fighter.position.y)
            (nearestSAM.position.x - fighter.position.x)
          let desiredHeadingRad := angleToSAMRad + Real.pi
          let prevHeading := fighter.heading
          let updated := updateHeading prevHeading desiredHeadingRad
          let headingDiffRad := updated - prevHeading
          if |headingDiffRad| > maxTurnRate * s.timeStep then
            { fighter with heading := fighter.heading +
                (maxTurnRate * s.timeStep) * (if 0 < headingDiffRad then 1 else -1) }
          else
            { fighter with heading := fighter.heading + headingDiffRad }
      else fighter) }

/-- `Scenario.updateFighterPositions` (lines 639–652). -/
def updateFighterPositions (s : ScenarioState) : ScenarioState :=
  { s with scenarioFighters := s.scenarioFighters.map (fun fighter =>
      if fighter.state = .active then
        let speedOfSound : ℝ := 343
        let velocityMs := fighter.velocity * speedOfSound
        let velocityKmS := velocityMs / 1000
        let distanceKm := velocityKmS * s.timeStep
        { fighter with position :=
            ⟨fighter.position.x + distanceKm * Real.cos fighter.heading,
             fighter.position.y + distanceKm * Real.sin fighter.heading⟩ }
      else fighter) }

/-- `Scenario.checkMissileIntercept` (lines 828–883).  (`tx`, `ty` and `u`
are computed by the source but never used; `Math.acos` returns `NaN`
outside `[-1,1]` where `Real.arccos` clamps, and the JS `NaN` comparison
chain and the ℝ division-by-zero conventions both make the degenerate
`previous = current` raycast fall back to the current-distance result —
evaluated explicitly where a proof depends on it.) -/
def checkMissileIntercept (missile : TMissile) (targetPos previousMissilePos : IPosition2D) :
    Bool :=
  let killRadius : ℝ := if missile.launchedBy = .sam then 1 else 5
  let dxCurrent := missile.position.x - targetPos.x
  let dyCurrent := missile.position.y - targetPos.y
  let distanceCurrent := Real.sqrt (dxCurrent * dxCurrent + dyCurrent * dyCurrent)
  if distanceCurrent ≤ killRadius then true
  else
    let mx := missile.position.x - previousMissilePos.x
    let my := missile.position.y - previousMissilePos.y
    let x1 := missile.position.x
    let y1 := missile.position.y
    let x2 := targetPos.x
    let y2 := targetPos.y
    let magM := Real.sqrt (mx * mx + my * my)
    let magT := Real.sqrt (x2 * x2 + y2 * y2)
    let theta := Real.arccos ((mx * x2 + my * y2) / (magM * magT))
    let thetaP := Real.pi / 2 - theta
    let ex := Real.cos thetaP
    let ey := Real.sin thetaP
    let t := ((x2 - x1) * ey + (y2 - y1) * ex) / (mx * ey - my * ex)
    let ix := x1 + t * mx
    let iy := y1 + t * my
    let intersectionDistance := Real.sqrt ((ix - targetPos.x) * (ix - targetPos.x) +
      (iy - targetPos.y) * (iy - targetPos.y))
    if t < 0 ∨ 1 < t then false
    else
      let perpDist := intersectionDistance
      if perpDist ≤ killRadius then true else false

/-- `missile.target.state = 'destroyed'` through the live reference. -/
def destroyTarget (sams : List SAMSystem) (fighters : List Fighter) :
    TargetRef → List SAMSystem × List Fighter
  | .samRef i =>
    match sams.get? i with
    | some sam => (sams.set i { sam with state := .destroyed }, fighters)
    | none => (sams, fighters)
  | .fighterRef i =>
    match fighters.get? i with
    | some f => (sams, fighters.set i { f with state := .destroyed })
    | none => (sams, fighters)

/-- One missile iteration of `evaluateKillCriteria` (lines 658–676).  The
source's `previousPosition` is `{ ...missile.position }`, a copy of the
*already moved* current position.  `missile.maxRange &&` is JS truthiness:
an absent or zero `maxRange` disables the miss check. -/
def evaluateKillOne (timeElapsed : ℝ)
    (acc : List TMissile × List SAMSystem × List Fighter) (i : ℕ) :
    List TMissile × List SAMSystem × List Fighter :=
  let missiles := acc.1
  let sams := acc.2.1
  let fighters := acc.2.2
  match missiles.get? i with
  | none => acc
  | some missile =>
    if missile.status = .active then
      let previousPosition : IPosition2D := ⟨missile.position.x, missile.position.y⟩
      let tpos : IPosition2D :=
        match missile.target with
        | .samRef k => ((sams.get? k).map (·.position)).getD ⟨0, 0⟩
        | .fighterRef k => ((fighters.get? k).map (·.position)).getD ⟨0, 0⟩
      let intercepted := checkMissileIntercept missile tpos previousPosition
      if intercepted then
        let destroyed := destroyTarget sams fighters missile.target
        (missiles.set i { missile with status := .kill, timeOfImpact := timeElapsed },
         destroyed.1, destroyed.2)
      else
        let distanceTraveled := missile.velocity * (timeElapsed - missile.timeOfLaunch)
        match missile.maxRange with
        | some r =>
          if r ≠ 0 ∧ r ≤ distanceTraveled then
            (missiles.set i { missile with status := .missed }, sams, fighters)
          else acc
        | none => acc
    else acc

/-- `Scenario.evaluateKillCriteria` (lines 657–677). -/
def evaluateKillCriteria (s : ScenarioState) : ScenarioState :=
  let res := (List.range s.missiles.length).foldl (evaluateKillOne s.timeElapsed)
    (s.missiles, s.scenarioSams, s.scenarioFighters)
  { s with missiles := res.1, scenarioSams := res.2.1, scenarioFighters := res.2.2 }

/-- `Scenario.checkSimulationComplete` (lines 682–704). -/
def checkSimulationComplete (s : ScenarioState) : Bool :=
  if s.scenarioSams.any (fun sam => decide (sam.state = .destroyed)) ||
      s.scenarioFighters.any (fun fighter => decide (fighter.state = .destroyed)) then
    true
  else if (s.missiles.all (fun m => decide (m.status ≠ .active))) &&
      decide (0 < s.missiles.length) then
    true
  else if decide (MAX_SIMULATION_TIME ≤ s.timeElapsed) then true
  else false

/-- `Scenario.advanceSimulationTimeStep` (lines 709–741): advance time, run
the nine sub-steps in order, store and return the completion flag. -/
def advanceSimulationTimeStep (rand : ℕ → ℝ) (s : ScenarioState) :
    ScenarioState × Bool :=
  let s1 := { s with timeElapsed := s.timeElapsed + s.timeStep }
  let s2 := updateSAMTrackingStatus s1
  let s3 := SAMDetectionAndEngagementLogic s2
  let s4 := fighterLaunchHARMLogic s3
  let s5 := updateMissileTracking rand s4
  let s6 := updateMissilePositions s5
  let s7 := updateFighterManeuvers s6
  let s8 := updateFighterPositions s7
  let s9 := evaluateKillCriteria s8
  let simulationComplete := checkSimulationComplete s9
  ({ s9 with isEngagementComplete := simulationComplete }, simulationComplete)

/-- `Scenario.engagementComplete`. -/
def engagementComplete (s : ScenarioState) : Bool := s.isEngagementComplete

/-- One record of `IMissileResult` (the source's string
`` `SAM-Missile-${timeOfLaunch}` `` identifier is modelled without the
number-to-string rendering; `timestamp: Date` is out of scope). -/
structure IMissileResult where
  id : String
  launchedBy : TLaunchedBy
  launchTime : ℝ
  timeOfImpact : Option ℝ
  impactPosition : Option IPosition2D
  status : MissileStatus

structure IEngagementResult where
  scenarioId : String
  missiles : List IMissileResult
  success : Bool

/-- `Scenario.engagementResult` (lines 758–788): per-missile records plus
`success = this.scenarioSams.every(sam => sam.state === 'destroyed')`. -/
def engagementResult (s : ScenarioState) : IEngagementResult :=
  let missileResultsArray := s.missiles.map (fun missile =>
    { id := if missile.launchedBy = .sam then "SAM-Missile" else "HARM-Missile"
      launchedBy := missile.launchedBy
      launchTime := missile.timeOfLaunch
      timeOfImpact := if missile.status = .kill then some missile.timeOfImpact else none
      impactPosition := if missile.status = .kill then some (targetPosition s missile.target) else none
      status := missile.status : IMissileResult })
  { scenarioId := s.id
    missiles := missileResultsArray
    success := s.scenarioSams.all (fun sam => decide (sam.state = .destroyed)) }

/-! ### C1: the completion check -/

/-- `checkSimulationComplete` holds exactly when some platform is destroyed,
or at least one missile has been launched and every launched missile is
non-active, or the elapsed time has reached the 600 s cap. -/
theorem checkSimulationComplete_iff (s : ScenarioState) :
    checkSimulationComplete s = true ↔
      ((∃ sam ∈ s.scenarioSams, sam.state = .destroyed) ∨
       (∃ f ∈ s.scenarioFighters, f.state = .destroyed) ∨
       (s.missiles ≠ [] ∧ ∀ m ∈ s.missiles, m.status ≠ .active) ∨
       600 ≤ s.timeElapsed) := by
  simp only [checkSimulationComplete, MAX_SIMULATION_TIME]
  split_ifs with hA hB hC
  · simp only [true_iff]
    simp only [Bool.or_eq_true, List.any_eq_true, decide_eq_true_eq] at hA
    rcases hA with h | h
    · exact Or.inl h
    · exact Or.inr (Or.inl h)
  · simp only [true_iff]
    simp only [Bool.and_eq_true, List.all_eq_true, decide_eq_true_eq] at hB
    refine Or.inr (Or.inr (Or.inl ⟨?_, hB.1⟩))
    exact List.ne_nil_of_length_pos hB.2
  · simp only [true_iff]
    exact Or.inr (Or.inr (Or.inr (by simpa using hC)))
  · simp only [false_iff]
    simp only [Bool.or_eq_true, List.any_eq_true, decide_eq_true_eq, not_or] at hA
    simp only [Bool.and_eq_true, List.all_eq_true, decide_eq_true_eq, not_and] at hB
    simp only [decide_eq_true_eq] at hC
    rintro (⟨sam, hmem, hdes⟩ | ⟨f, hmem, hdes⟩ | ⟨hne, hall⟩ | htime)
    · exact hA.1 ⟨sam, hmem, hdes⟩
    · exact hA.2 ⟨f, hmem, hdes⟩
    · exact hB hall (List.length_pos.2 hne)
    · exact hC htime

/-- C1: `advanceSimulationTimeStep` returns `true`, and the engagement is
thereafter reported complete, exactly when — after the step — some SAM or
fighter platform is destroyed, or at least one missile has been launched
and every launched missile has a non-active status, or the elapsed time has
reached the 600 s cap. -/
theorem advance_reports_complete_iff (rand : ℕ → ℝ) (s : ScenarioState) :
    ((advanceSimulationTimeStep rand s).2 = true ↔
      ((∃ sam ∈ (advanceSimulationTimeStep rand s).1.scenarioSams,
          sam.state = .destroyed) ∨
       (∃ f ∈ (advanceSimulationTimeStep rand s).1.scenarioFighters,
          f.state = .destroyed) ∨
       ((advanceSimulationTimeStep rand s).1.missiles ≠ [] ∧
          ∀ m ∈ (advanceSimulationTimeStep rand s).1.missiles,
            m.status ≠ .active) ∨
       600 ≤ (advanceSimulationTimeStep rand s).1.timeElapsed)) ∧
    engagementComplete (advanceSimulationTimeStep rand s).1 =
      (advanceSimulationTimeStep rand s).2 := by
  exact ⟨checkSimulationComplete_iff _, rfl⟩

/-! ### C10: terminal missiles are frozen -/

theorem updateSAMTrackingStatus_missiles (s : ScenarioState) :
    (updateSAMTrackingStatus s).missiles = s.missiles := rfl

theorem updateFighterManeuvers_missiles (s : ScenarioState) :
    (updateFighterManeuvers s).missiles = s.missiles := rfl

theorem updateFighterPositions_missiles (s : ScenarioState) :
    (updateFighterPositions s).missiles = s.missiles := rfl

theorem samLaunchForTrack_extends (tE : ℝ) (fighters : List Fighter)
    (acc : SAMSystem × List TMissile) (e : String × Track) :
    ∃ t, (samLaunchForTrack tE fighters acc e).2 = acc.2 ++ t := by
  simp only [samLaunchForTrack]
  repeat' split
  all_goals first
    | exact ⟨[], (List.append_nil _).symm⟩
    | exact ⟨_, rfl⟩

theorem foldl_samLaunch_extends (tE : ℝ) (fighters : List Fighter)
    (l : List (String × Track)) :
    ∀ acc : SAMSystem × List TMissile,
      ∃ t, (l.foldl (samLaunchForTrack tE fighters) acc).2 = acc.2 ++ t := by
  induction l with
  | nil => intro acc; exact ⟨[], (List.append_nil _).symm⟩
  | cons e rest ih =>
    intro acc
    obtain ⟨t1, h1⟩ := samLaunchForTrack_extends tE fighters acc e
    obtain ⟨t2, h2⟩ := ih (samLaunchForTrack tE fighters acc e)
    exact ⟨t1 ++ t2, by rw [List.foldl_cons, h2, h1, List.append_assoc]⟩

theorem SAMDetection_missiles_extends (s : ScenarioState) :
    ∃ t, (SAMDetectionAndEngagementLogic s).missiles = s.missiles ++ t := by
  unfold SAMDetectionAndEngagementLogic
  suffices h : ∀ (sams : List SAMSystem) (acc : List SAMSystem × List TMissile),
      ∃ t, (sams.foldl (fun acc samSystem =>
        let inner := samSystem.trackedTargets.foldl
          (samLaunchForTrack s.timeElapsed s.scenarioFighters) (samSystem, acc.2)
        (acc.1 ++ [inner.1], inner.2)) acc).2 = acc.2 ++ t by
    exact h s.scenarioSams ([], s.missiles)
  intro sams
  induction sams with
  | nil => intro acc; exact ⟨[], (List.append_nil _).symm⟩
  | cons sam rest ih =>
    intro acc
    obtain ⟨t1, h1⟩ := foldl_samLaunch_extends s.timeElapsed s.scenarioFighters
      sam.trackedTargets (sam, acc.2)
    obtain ⟨t2, h2⟩ := ih (acc.1 ++ [(sam.trackedTargets.foldl
      (samLaunchForTrack s.timeElapsed s.scenarioFighters) (sam, acc.2)).1],
      (sam.trackedTargets.foldl
        (samLaunchForTrack s.timeElapsed s.scenarioFighters) (sam, acc.2)).2)
    refine ⟨t1 ++ t2, ?_⟩
    rw [List.foldl_cons]
    rw [h2]
    simp only [h1, List.append_assoc]

theorem harmLaunchForSam_extends (tE : ℝ) (acc : Fighter × List TMissile)
    (e : ℕ × SAMSystem) :
    ∃ t, (harmLaunchForSam tE acc e).2 = acc.2 ++ t := by
  simp only [harmLaunchForSam]
  repeat' split
  all_goals first
    | exact ⟨[], (List.append_nil _).symm⟩
    | exact ⟨_, rfl⟩

theorem foldl_harmLaunch_extends (tE : ℝ) (l : List (ℕ × SAMSystem)) :
    ∀ acc : Fighter × List TMissile,
      ∃ t, (l.foldl (harmLaunchForSam tE) acc).2 = acc.2 ++ t := by
  induction l with
  | nil => intro acc; exact ⟨[], (List.append_nil _).symm⟩
  | cons e rest ih =>
    intro acc
    obtain ⟨t1, h1⟩ := harmLaunchForSam_extends tE acc e
    obtain ⟨t2, h2⟩ := ih (harmLaunchForSam tE acc e)
    exact ⟨t1 ++ t2, by rw [List.foldl_cons, h2, h1, List.append_assoc]⟩

theorem fighterLaunch_missiles_extends (s : ScenarioState) :
    ∃ t, (fighterLaunchHARMLogic s).missiles = s.missiles ++ t := by
  unfold fighterLaunchHARMLogic
  suffices h : ∀ (fighters : List Fighter) (acc : List Fighter × List TMissile),
      ∃ t, (fighters.foldl (fun acc fighter =>
        let inner := s.scenarioSams.enum.foldl (harmLaunchForSam s.timeElapsed)
          (fighter, acc.2)
        (acc.1 ++ [inner.1], inner.2)) acc).2 = acc.2 ++ t by
    exact h s.scenarioFighters ([], s.missiles)
  intro fighters
  induction fighters with
  | nil => intro acc; exact ⟨[], (List.append_nil _).symm⟩
  | cons f rest ih =>
    intro acc
    obtain ⟨t1, h1⟩ := foldl_harmLaunch_extends s.timeElapsed s.scenarioSams.enum
      (f, acc.2)
    obtain ⟨t2, h2⟩ := ih (acc.1 ++ [(s.scenarioSams.enum.foldl
      (harmLaunchForSam s.timeElapsed) (f, acc.2)).1],
      (s.scenarioSams.enum.foldl (harmLaunchForSam s.timeElapsed) (f, acc.2)).2)
    refine ⟨t1 ++ t2, ?_⟩
    rw [List.foldl_cons, h2]
    simp only [h1, List.append_assoc]

theorem updateMissileTracking_get? (rand : ℕ → ℝ) (s : ScenarioState) (i : ℕ)
    (m : TMissile) (h : s.missiles.get? i = some m) (hm : m.status ≠ .active) :
    (updateMissileTracking rand s).missiles.get? i = some m := by
  simp only [updateMissileTracking]
  rw [List.get?_map, List.enum_get?, h]
  simp [updateMissileTrackingOne, hm]

theorem updateMissilePositions_get? (s : ScenarioState) (i : ℕ) (m : TMissile)
    (h : s.missiles.get? i = some m) (hm : m.status ≠ .active) :
    (updateMissilePositions s).missiles.get? i = some m := by
  simp only [updateMissilePositions]
  rw [List.get?_map, h]
  simp [hm]

theorem evaluateKillOne_preserves (tE : ℝ)
    (acc : List TMissile × List SAMSystem × List Fighter) (i : ℕ) (m : TMissile)
    (h : acc.1.get? i = some m) (hm : m.status ≠ .active) (j : ℕ) :
    (evaluateKillOne tE acc j).1.get? i = some m := by
  simp only [evaluateKillOne]
  cases hj : acc.1.get? j with
  | none => simpa [hj] using h
  | some mj =>
    by_cases hact : mj.status = .active
    · rcases eq_or_ne i j with rfl | hne
      · rw [h] at hj
        cases hj
        exact absurd hact hm
      · simp only [hj, if_pos hact]
        split
        · rw [List.get?_set_ne _ _ (Ne.symm hne)]
          exact h
        · split
          · split
            · rw [List.get?_set_ne _ _ (Ne.symm hne)]
              exact h
            · exact h
          · exact h
    · simp only [hj, if_neg hact]
      exact h

theorem evaluateKillCriteria_get? (s : ScenarioState) (i : ℕ) (m : TMissile)
    (h : s.missiles.get? i = some m) (hm : m.status ≠ .active) :
    (evaluateKillCriteria s).missiles.get? i = some m := by
  unfold evaluateKillCriteria
  suffices hgen : ∀ (l : List ℕ) (acc : List TMissile × List SAMSystem × List Fighter),
      acc.1.get? i = some m →
      (l.foldl (evaluateKillOne s.timeElapsed) acc).1.get? i = some m by
    exact hgen _ _ h
  intro l
  induction l with
  | nil => intro acc hacc; exact hacc
  | cons j rest ih =>
    intro acc hacc
    rw [List.foldl_cons]
    exact ih _ (evaluateKillOne_preserves s.timeElapsed acc i m hacc hm j)

/-- C10: once a missile's status is `kill` or `missed`, a subsequent
`advanceSimulationTimeStep` leaves its position, heading and status (indeed
its whole record) unchanged: the guidance, kinematics and kill-evaluation
loops skip non-active missiles, and the launch phases only append. -/
theorem terminal_missiles_frozen (rand : ℕ → ℝ) (s : ScenarioState) (i : ℕ)
    (m : TMissile) (h : s.missiles.get? i = some m) (hm : m.status ≠ .active) :
    ∃ m', (advanceSimulationTimeStep rand s).1.missiles.get? i = some m' ∧
      m'.position = m.position ∧ m'.heading = m.heading ∧ m'.status = m.status := by
  refine ⟨m, ?_, rfl, rfl, rfl⟩
  have hi : i < s.missiles.length := by
    rcases List.get?_eq_some.1 h with ⟨hlt, -⟩
    exact hlt
  show (evaluateKillCriteria _).missiles.get? i = some m
  apply evaluateKillCriteria_get? _ i m _ hm
  rw [updateFighterPositions_missiles, updateFighterManeuvers_missiles]
  apply updateMissilePositions_get? _ i m _ hm
  apply updateMissileTracking_get? rand _ i m _ hm
  obtain ⟨t2, h2⟩ := fighterLaunch_missiles_extends
    (SAMDetectionAndEngagementLogic (updateSAMTrackingStatus
      { s with timeElapsed := s.timeElapsed + s.timeStep }))
  rw [h2]
  obtain ⟨t1, h1⟩ := SAMDetection_missiles_extends (updateSAMTrackingStatus
    { s with timeElapsed := s.timeElapsed + s.timeStep })
  rw [h1]
  rw [updateSAMTrackingStatus_missiles]
  show ((s.missiles ++ t1) ++ t2).get? i = some m
  rw [List.append_assoc, List.get?_append hi]
  exact h

/-- A terminal (killed) missile used to witness `terminal_missiles_frozen`. -/
def missileC10 : TMissile where
  position := ⟨1, 2⟩
  velocity := 1
  heading := 0
  status := .kill
  launchedBy := .sam
  timeOfLaunch := 0
  timeOfImpact := 3
  maxRange := none
  target := .fighterRef 0

/-- A minimal state holding the terminal missile. -/
def stateC10 : ScenarioState where
  id := "c10"
  timeStep := 1
  timeElapsed := 10
  scenarioSams := []
  scenarioFighters := []
  missiles := [missileC10]
  isEngagementComplete := false

/-- Witness for `terminal_missiles_frozen` at `stateC10`. -/
theorem terminal_missiles_frozen_witness :
    (stateC10.missiles.get? 0 = some missileC10 ∧ missileC10.status ≠ .active) ∧
    (∃ m', (advanceSimulationTimeStep (fun _ => 0) stateC10).1.missiles.get? 0 =
        some m' ∧
      m'.position = missileC10.position ∧ m'.heading = missileC10.heading ∧
      m'.status = missileC10.status) :=
  ⟨⟨rfl, by decide⟩,
   terminal_missiles_frozen (fun _ => 0) stateC10 0 missileC10 rfl (by decide)⟩

/-! ### C4: track upsert/delete exactness — `Map` lemmas -/

theorem find_mapSet_replace (m : List (String × Track)) (k : String) (v : Track) :
    (m.map (fun p => if p.1 == k then (k, v) else p)).find? (fun p => p.1 == k) =
      (m.find? (fun p => p.1 == k)).map (fun _ => (k, v)) := by
  induction m with
  | nil => rfl
  | cons p rest ih =>
    cases hp : (p.1 == k) with
    | true =>
      simp only [List.map_cons, if_pos hp, List.find?_cons]
      simp [hp]
    | false =>
      have hp' : ¬ ((p.1 == k) = true) := by simp [hp]
      rw [List.map_cons, if_neg hp']
      simp only [List.find?_cons, hp]
      exact ih

theorem find_mapSet_replace_ne (m : List (String × Track)) (k k' : String)
    (v : Track) (hne : k' ≠ k) :
    (m.map (fun p => if p.1 == k then (k, v) else p)).find? (fun p => p.1 == k') =
      m.find? (fun p => p.1 == k') := by
  induction m with
  | nil => rfl
  | cons p rest ih =>
    cases hp : (p.1 == k) with
    | true =>
      have hp' : p.1 = k := by simpa using hp
      have h1 : ((k : String) == k') = false := by simp [Ne.symm hne]
      have h2 : (p.1 == k') = false := by simp [hp', Ne.symm hne]
      simp only [List.map_cons, if_pos hp, List.find?_cons, h1, h2]
      exact ih
    | false =>
      have hp' : ¬ ((p.1 == k) = true) := by simp [hp]
      simp only [List.map_cons, if_neg hp', List.find?_cons]
      cases h : (p.1 == k') with
      | true => simp [h]
      | false => simp only [h]; exact ih

theorem mapGet_mapSet_self (m : List (String × Track)) (k : String) (v : Track) :
    mapGet (mapSet m k v) k = some v := by
  unfold mapGet mapSet
  split
  · rename_i hsome
    rw [find_mapSet_replace]
    cases h : m.find? (fun p => p.1 == k) with
    | none => rw [h] at hsome; simp at hsome
    | some p => simp
  · rw [List.find?_append]
    rename_i hnone
    cases h : m.find? (fun p => p.1 == k) with
    | some p => rw [h] at hnone; simp at hnone
    | none => simp

theorem mapGet_mapSet_ne (m : List (String × Track)) (k k' : String) (v : Track)
    (hne : k' ≠ k) : mapGet (mapSet m k v) k' = mapGet m k' := by
  unfold mapGet mapSet
  split
  · rw [find_mapSet_replace_ne m k k' v hne]
  · rw [List.find?_append]
    have h0 : ([(k, v)].find? (fun p => p.1 == k')) = none := by
      simp [Ne.symm hne]
    rw [h0]
    cases m.find? (fun p => p.1 == k') <;> rfl

theorem mapGet_mapDelete_self (m : List (String × Track)) (k : String) :
    mapGet (mapDelete m k) k = none := by
  unfold mapGet mapDelete
  induction m with
  | nil => rfl
  | cons p rest ih =>
    cases hp : (p.1 == k) with
    | true =>
      rw [List.filter_cons_of_neg (by simp [hp])]
      exact ih
    | false =>
      rw [List.filter_cons_of_pos (by simp [hp])]
      simp only [List.find?_cons, hp]
      exact ih

theorem mapGet_mapDelete_ne (m : List (String × Track)) (k k' : String)
    (hne : k' ≠ k) : mapGet (mapDelete m k) k' = mapGet m k' := by
  unfold mapGet mapDelete
  congr 1
  induction m with
  | nil => rfl
  | cons p rest ih =>
    cases hp : (p.1 == k) with
    | true =>
      have hp' : p.1 = k := by simpa using hp
      have h2 : (p.1 == k') = false := by simp [hp', Ne.symm hne]
      rw [List.filter_cons_of_neg (by simp [hp])]
      rw [List.find?_cons_of_neg _ (by simp [h2])]
      exact ih
    | false =>
      rw [List.filter_cons_of_pos (by simp [hp])]
      simp only [List.find?_cons]
      cases h : (p.1 == k') with
      | true => simp [h]
      | false => simp only [h]; exact ih

/-! ### C4: track upsert/delete exactness -/

/-- The per-pair distance the tracking loop computes. -/
def pairDistance (sam : SAMSystem) (fighter : Fighter) : ℝ :=
  Real.sqrt ((fighter.position.x - sam.position.x) ^ 2 +
    (fighter.position.y - sam.position.y) ^ 2)

/-- The per-pair instantaneous attenuated detection range the tracking loop
computes: the precomputed per-azimuth (attenuation-sampled) range at the
fighter's azimuth, rescaled for the fighter's aspect RCS with one pulse. -/
def pairDetectionRange (sam : SAMSystem) (fighter : Fighter) : ℝ :=
  calculateDetectionRange
    (fighter.getRCSFromPosition fighter.position sam.position fighter.heading) 1
    (sam.getRangeAtAzimuth (sam.getAzimuthToTarget fighter.position))

/-- The track record the tracking loop stores for a detected pair: an
existing track's time-in-track grows by the step duration, a fresh track
starts at the step duration. -/
def upsertTrack (tS tE : ℝ) (sam : SAMSystem) (f : Fighter) : Track :=
  match mapGet sam.trackedTargets f.id with
  | some retObj =>
    { retObj with
      timeElapsedTracking := retObj.timeElapsedTracking + tS
      distance := pairDistance sam f
      azimuth := sam.getAzimuthToTarget f.position
      status := .tracking }
  | none =>
    { id := f.id
      acquisitionTime := tE
      distance := pairDistance sam f
      azimuth := sam.getAzimuthToTarget f.position
      status := .tracking
      timeElapsedTracking := tS }

theorem trackingStep_self (tS tE : ℝ) (sam : SAMSystem) (f : Fighter) :
    mapGet (trackingUpdateForFighter tS tE sam f).trackedTargets f.id =
      if pairDistance sam f ≤ pairDetectionRange sam f then
        some (upsertTrack tS tE sam f)
      else none := by
  simp only [trackingUpdateForFighter, pairDistance, pairDetectionRange, upsertTrack]
  split
  · cases hold : mapGet sam.trackedTargets f.id with
    | some retObj => exact mapGet_mapSet_self _ _ _
    | none => exact mapGet_mapSet_self _ _ _
  · exact mapGet_mapDelete_self _ _

theorem trackingStep_frame (tS tE : ℝ) (sam : SAMSystem) (g : Fighter) :
    (trackingUpdateForFighter tS tE sam g).position = sam.position ∧
    (trackingUpdateForFighter tS tE sam g).ranges = sam.ranges ∧
    ∀ k, g.id ≠ k →
      mapGet (trackingUpdateForFighter tS tE sam g).trackedTargets k =
        mapGet sam.trackedTargets k := by
  simp only [trackingUpdateForFighter]
  split
  · cases hold : mapGet sam.trackedTargets g.id with
    | some retObj => exact ⟨rfl, rfl, fun k hk => mapGet_mapSet_ne _ _ _ _ (Ne.symm hk)⟩
    | none => exact ⟨rfl, rfl, fun k hk => mapGet_mapSet_ne _ _ _ _ (Ne.symm hk)⟩
  · exact ⟨rfl, rfl, fun k hk => mapGet_mapDelete_ne _ _ _ (Ne.symm hk)⟩

theorem pair_congr (sam sam' : SAMSystem) (f : Fighter)
    (hpos : sam'.position = sam.position) (hr : sam'.ranges = sam.ranges) :
    pairDistance sam' f = pairDistance sam f ∧
    pairDetectionRange sam' f = pairDetectionRange sam f ∧
    sam'.getAzimuthToTarget f.position = sam.getAzimuthToTarget f.position := by
  unfold pairDistance pairDetectionRange SAMSystem.getAzimuthToTarget
    getAzimuthToTargetFrom SAMSystem.getRangeAtAzimuth SAMSystem.getDetectionRanges
  rw [hpos, hr]
  exact ⟨rfl, rfl, rfl⟩

theorem upsertTrack_congr (tS tE : ℝ) (sam sam' : SAMSystem) (f : Fighter)
    (hpos : sam'.position = sam.position) (hr : sam'.ranges = sam.ranges)
    (hmap : mapGet sam'.trackedTargets f.id = mapGet sam.trackedTargets f.id) :
    upsertTrack tS tE sam' f = upsertTrack tS tE sam f := by
  unfold upsertTrack
  rw [hmap]
  obtain ⟨h1, -, h3⟩ := pair_congr sam sam' f hpos hr
  rw [h1, h3]

theorem foldl_tracking_frame (tS tE : ℝ) (k : String) :
    ∀ (fs : List Fighter), (∀ h ∈ fs, h.id ≠ k) → ∀ sam,
      mapGet ((fs.foldl (trackingUpdateForFighter tS tE) sam).trackedTargets) k =
        mapGet sam.trackedTargets k ∧
      (fs.foldl (trackingUpdateForFighter tS tE) sam).position = sam.position ∧
      (fs.foldl (trackingUpdateForFighter tS tE) sam).ranges = sam.ranges := by
  intro fs
  induction fs with
  | nil => intro _ sam; exact ⟨rfl, rfl, rfl⟩
  | cons g rest ih =>
    intro hk sam
    rw [List.foldl_cons]
    have hstep := trackingStep_frame tS tE sam g
    have hrest := ih (fun h hh => hk h (List.mem_cons_of_mem g hh))
      (trackingUpdateForFighter tS tE sam g)
    exact ⟨hrest.1.trans (hstep.2.2 k (hk g (List.mem_cons_self g rest))),
      hrest.2.1.trans hstep.1, hrest.2.2.trans hstep.2.1⟩

theorem foldl_tracking_mapGet (tS tE : ℝ) :
    ∀ (fs : List Fighter), (fs.map Fighter.id).Nodup →
      ∀ f ∈ fs, ∀ sam,
        mapGet ((fs.foldl (trackingUpdateForFighter tS tE) sam).trackedTargets) f.id =
          if pairDistance sam f ≤ pairDetectionRange sam f then
            some (upsertTrack tS tE sam f)
          else none := by
  intro fs
  induction fs with
  | nil => intro _ f hf; exact absurd hf (List.not_mem_nil f)
  | cons g rest ih =>
    intro hnodup f hf sam
    rw [List.foldl_cons]
    have hnodup' : (∀ x ∈ rest, x.id ≠ g.id) ∧ (rest.map Fighter.id).Nodup := by
      simpa using hnodup
    rcases List.mem_cons.1 hf with rfl | hfr
    · have hids : ∀ h ∈ rest, h.id ≠ f.id := hnodup'.1
      have hframe := foldl_tracking_frame tS tE f.id rest hids
        (trackingUpdateForFighter tS tE sam f)
      rw [hframe.1]
      exact trackingStep_self tS tE sam f
    · have hgid : g.id ≠ f.id := fun heq => hnodup'.1 f hfr heq.symm
      have hstep := trackingStep_frame tS tE sam g
      have hih := ih hnodup'.2 f hfr (trackingUpdateForFighter tS tE sam g)
      rw [hih]
      obtain ⟨h1, h2, -⟩ := pair_congr sam (trackingUpdateForFighter tS tE sam g) f
        hstep.1 hstep.2.1
      rw [h1, h2,
        upsertTrack_congr tS tE sam _ f hstep.1 hstep.2.1 (hstep.2.2 f.id hgid)]

/-- C4: after a tracking update step, each site's track map contains an
entry for a fighter exactly when the pair's distance is within the site's
instantaneous attenuated detection range at the fighter's azimuth; a
detected pair's stored track is the upsert (existing time-in-track plus the
step duration, or a fresh track at the step duration), and an undetected
pair's entry is deleted with no hysteresis. -/
theorem tracking_upsert_delete_iff (s : ScenarioState)
    (hnodup : (s.scenarioFighters.map Fighter.id).Nodup) :
    ∀ i sam, s.scenarioSams.get? i = some sam → ∀ f ∈ s.scenarioFighters,
      ∃ sam', (updateSAMTrackingStatus s).scenarioSams.get? i = some sam' ∧
        mapGet sam'.trackedTargets f.id =
          (if pairDistance sam f ≤ pairDetectionRange sam f then
            some (upsertTrack s.timeStep s.timeElapsed sam f)
           else none) ∧
        ((mapGet sam'.trackedTargets f.id).isSome = true ↔
          pairDistance sam f ≤ pairDetectionRange sam f) := by
  intro i sam hsam f hf
  refine ⟨s.scenarioFighters.foldl (trackingUpdateForFighter s.timeStep s.timeElapsed)
    sam, ?_, ?_, ?_⟩
  · show (s.scenarioSams.map _).get? i = _
    rw [List.get?_map, hsam]
    rfl
  · exact foldl_tracking_mapGet s.timeStep s.timeElapsed s.scenarioFighters hnodup f hf sam
  · rw [foldl_tracking_mapGet s.timeStep s.timeElapsed s.scenarioFighters hnodup f hf sam]
    split_ifs with h <;> simp [h]

/-- Concrete site and fighter for the C4 witness (also used by the C5
engagement-cap run). -/
def samC4 : SAMSystem where
  id := "sam-1"
  properties := { memr := 50, autoAcquisitionTime := 5 }
  missileVelocity := 3
  trackedTargets := []
  state := .active
  ranges := [0]
  launchIntervalSec := 5
  position := ⟨0, 0⟩
  status := { missilesRemaining := 0, launchedMissiles := 0, totalMissiles := 0,
              lastLaunchTime := 0 }

def fighterC4 : Fighter where
  id := "fighter-1"
  position := ⟨10, 0⟩
  velocity := 0
  rcs := { nose := 1, tail := 1, side := 1, top := 1, bottom := 1 }
  harmVelocity := 2
  harmRange := 0
  heading := 0
  missilesRemaining := 0
  state := .active
  maneuvers := .noManeuver

def stateC4 : ScenarioState where
  id := "c4"
  timeStep := 5
  timeElapsed := 0
  scenarioSams := [samC4]
  scenarioFighters := [fighterC4]
  missiles := []
  isEngagementComplete := false

/-- Witness for `tracking_upsert_delete_iff` on the one-site, one-fighter
state `stateC4`. -/
theorem tracking_upsert_delete_iff_witness :
    ((stateC4.scenarioFighters.map Fighter.id).Nodup ∧
      stateC4.scenarioSams.get? 0 = some samC4 ∧
      fighterC4 ∈ stateC4.scenarioFighters) ∧
    (∃ sam', (updateSAMTrackingStatus stateC4).scenarioSams.get? 0 = some sam' ∧
      mapGet sam'.trackedTargets fighterC4.id =
        (if pairDistance samC4 fighterC4 ≤ pairDetectionRange samC4 fighterC4 then
          some (upsertTrack stateC4.timeStep stateC4.timeElapsed samC4 fighterC4)
         else none) ∧
      ((mapGet sam'.trackedTargets fighterC4.id).isSome = true ↔
        pairDistance samC4 fighterC4 ≤ pairDetectionRange samC4 fighterC4)) :=
  ⟨⟨by simp [stateC4, fighterC4], rfl, by simp [stateC4]⟩,
   tracking_upsert_delete_iff stateC4 (by simp [stateC4, fighterC4]) 0 samC4 rfl
     fighterC4 (by simp [stateC4])⟩

/-! ### C3: the kill step against the spec's segment test -/

/-- Square-root evaluation at perfect squares. -/
theorem sqrt_eval {a b : ℝ} (hb : 0 ≤ b) (h : b ^ 2 = a) : Real.sqrt a = b := by
  rw [← h, Real.sqrt_sq hb]

/-- Spec-side intercept predicate, following the claim's words (this is
*not* translated from the source; it is the standard described by the spec,
to be compared against `checkMissileIntercept` as called by the kill step):
intercept iff the current missile-to-target distance is within the kill
radius, or the perpendicular foot of the target on the previous→current
segment lies at parameter `t ∈ [0,1]` and is within the kill radius. -/
def specInterceptPredicate (killRadius : ℝ)
    (prevPos currPos targetPos : IPosition2D) : Prop :=
  Real.sqrt ((currPos.x - targetPos.x) ^ 2 + (currPos.y - targetPos.y) ^ 2) ≤
      killRadius ∨
  (let mx := currPos.x - prevPos.x
   let my := currPos.y - prevPos.y
   let t := ((targetPos.x - prevPos.x) * mx + (targetPos.y - prevPos.y) * my) /
     (mx * mx + my * my)
   0 ≤ t ∧ t ≤ 1 ∧
   Real.sqrt ((prevPos.x + t * mx - targetPos.x) ^ 2 +
     (prevPos.y + t * my - targetPos.y) ^ 2) ≤ killRadius)

/-- A site-launched missile that starts the step at the origin heading
`+x` at 2 km/s; over a 5 s step it moves from `(0,0)` to `(10,0)`, straight
through its target at `(5,0)`. -/
def missileC3 : TMissile where
  position := ⟨0, 0⟩
  velocity := 2
  heading := 0
  status := .active
  launchedBy := .sam
  timeOfLaunch := 0
  timeOfImpact := 0
  maxRange := none
  target := .fighterRef 0

def fighterC3 : Fighter where
  id := "f-1"
  position := ⟨5, 0⟩
  velocity := 0
  rcs := { nose := 1, tail := 1, side := 1, top := 1, bottom := 1 }
  harmVelocity := 2
  harmRange := 0
  heading := 0
  missilesRemaining := 0
  state := .active
  maneuvers := .noManeuver

def stateC3 : ScenarioState where
  id := "c3"
  timeStep := 5
  timeElapsed := 0
  scenarioSams := []
  scenarioFighters := [fighterC3]
  missiles := [missileC3]
  isEngagementComplete := false

/-- The state the kill step actually sees: the missile already moved to
`(10,0)`, the fighter still at `(5,0)`. -/
def stateC3' : ScenarioState :=
  { stateC3 with
    timeElapsed := 5
    missiles := [{ missileC3 with position := ⟨10, 0⟩ }] }

/-- The kill step's own intercept call on the moved missile — with the
degenerate `previousMissilePos = missile.position` the source passes —
reports no intercept: the current distance is 5 > 1, and the raycast
degenerates (`magM = 0`, `0/0` quotients) to re-testing the current
position. -/
theorem checkMissileIntercept_C3 :
    checkMissileIntercept { missileC3 with position := ⟨10, 0⟩ } ⟨5, 0⟩ ⟨10, 0⟩ =
      false := by
  have h25 : Real.sqrt 25 = 5 := sqrt_eval (by norm_num) (by norm_num)
  simp only [checkMissileIntercept, missileC3]
  norm_num [h25, Real.sqrt_zero, Real.arccos_zero, Real.cos_zero, Real.sin_zero]

/-- The first eight sub-steps of the advance on `stateC3` (with the
perturbation draws zero): the missile flies `(0,0) → (10,0)` through the
target; nothing else changes. -/
theorem advanceC3_motion :
    updateFighterPositions (updateFighterManeuvers (updateMissilePositions
      (updateMissileTracking (fun _ => 0) (fighterLaunchHARMLogic
        (SAMDetectionAndEngagementLogic (updateSAMTrackingStatus
          { stateC3 with timeElapsed := stateC3.timeElapsed + stateC3.timeStep })))))) =
      stateC3' := by
  have h1 : fighterLaunchHARMLogic (SAMDetectionAndEngagementLogic
      (updateSAMTrackingStatus
        { stateC3 with timeElapsed := stateC3.timeElapsed + stateC3.timeStep })) =
      { stateC3 with timeElapsed := stateC3.timeElapsed + stateC3.timeStep } := rfl
  rw [h1]
  have henum : ∀ m : TMissile, ([m] : List TMissile).enum = [(0, m)] := fun _ => rfl
  norm_num [updateMissileTracking, updateMissileTrackingOne, updateMissilePositions,
    updateFighterManeuvers, updateFighterPositions, henum, stateC3, stateC3',
    missileC3, fighterC3, targetRefId, Real.cos_zero, Real.sin_zero]

/-- The kill step on `stateC3'` changes nothing: the degenerate intercept
test fails and `maxRange` is absent. -/
theorem evaluateKillCriteria_C3 : evaluateKillCriteria stateC3' = stateC3' := by
  have h25 : Real.sqrt 25 = 5 := sqrt_eval (by norm_num) (by norm_num)
  have hlen : stateC3'.missiles.length = 1 := rfl
  have hrange : List.range 1 = [0] := rfl
  simp only [evaluateKillCriteria, hlen, hrange, List.foldl_cons, List.foldl_nil]
  norm_num [evaluateKillOne, checkMissileIntercept, stateC3', stateC3, missileC3,
    fighterC3, List.get?_cons_zero, h25, Real.sqrt_zero, Real.arccos_zero,
    Real.cos_zero, Real.sin_zero]

/-- C3 (code bug): the spec's segment test declares an intercept for the
missile's actual motion `(0,0) → (10,0)` against its target at `(5,0)` with
the site-launched kill radius 1, but the advance step leaves the missile
active and the fighter alive: `evaluateKillCriteria` runs *after*
`updateMissilePositions` and passes a copy of the already-moved current
position as `previousPosition`, so `checkMissileIntercept` never sees the
travelled segment. -/
theorem kill_step_ignores_travel_segment :
    specInterceptPredicate 1 ⟨0, 0⟩ ⟨10, 0⟩ ⟨5, 0⟩ ∧
    stateC3.missiles = [missileC3] ∧ missileC3.position = ⟨0, 0⟩ ∧
    missileC3.status = .active ∧ missileC3.launchedBy = .sam ∧
    (advanceSimulationTimeStep (fun _ => 0) stateC3).1.missiles =
      [{ missileC3 with position := ⟨10, 0⟩ }] ∧
    (advanceSimulationTimeStep (fun _ => 0) stateC3).1.missiles.map
      TMissile.status = [.active] ∧
    (advanceSimulationTimeStep (fun _ => 0) stateC3).1.scenarioFighters.map
      Fighter.state = [.active] ∧
    (advanceSimulationTimeStep (fun _ => 0) stateC3).2 = false := by
  have hcomplete : checkSimulationComplete stateC3' = false := by
    simp only [checkSimulationComplete, stateC3', stateC3, missileC3, fighterC3,
      MAX_SIMULATION_TIME]
    norm_num
    decide
  have hadv : advanceSimulationTimeStep (fun _ => 0) stateC3 =
      ({ stateC3' with isEngagementComplete := false }, false) := by
    simp only [advanceSimulationTimeStep]
    rw [advanceC3_motion, evaluateKillCriteria_C3, hcomplete]
  refine ⟨?_, rfl, rfl, rfl, rfl, ?_, ?_, ?_, ?_⟩
  · refine Or.inr ?_
    simp only [specInterceptPredicate]
    norm_num
  · rw [hadv]; exact rfl
  · rw [hadv]; exact rfl
  · rw [hadv]; exact rfl
  · rw [hadv]

/-! ### C5: the success flag and the zero-interceptor cap run -/

/-- A zero base range scales to a zero detection range for every RCS and
pulse count. -/
theorem calculateDetectionRange_zero_range (rcs pulses : ℝ) :
    calculateDetectionRange rcs pulses 0 = 0 := by
  simp [calculateDetectionRange]

/-- `stateC4` with the clock at `t` and the stored completion flag `b`:
the shape every state in the zero-interceptor run has. -/
def baseC5 (t : ℝ) (b : Bool) : ScenarioState :=
  { stateC4 with timeElapsed := t, isEngagementComplete := b }

/-- The scenario driver's repeated stepping: `iterateAdvance rand s n` is
the (state, completion-flag) pair after `n` calls of
`advanceSimulationTimeStep` starting from `s`. -/
def iterateAdvance (rand : ℕ → ℝ) (s : ScenarioState) : ℕ → ScenarioState × Bool
  | 0 => (s, false)
  | n + 1 => advanceSimulationTimeStep rand (iterateAdvance rand s n).1

/-- One advance on the zero-interceptor state: the out-of-range static
fighter is never tracked, nothing launches, nothing moves, and only the
clock advances; the step reports completion exactly when the 600 s cap is
reached. -/
theorem advance_baseC5 (t : ℝ) (b : Bool) :
    advanceSimulationTimeStep (fun _ => 0) (baseC5 t b) =
      (baseC5 (t + 5) (decide ((600 : ℝ) ≤ t + 5)), decide ((600 : ℝ) ≤ t + 5)) := by
  have h100 : Real.sqrt 100 = 10 := sqrt_eval (by norm_num) (by norm_num)
  have hgetD : ∀ n : ℕ, List.getD ([(0 : ℝ)] : List ℝ) n 0 = 0 := by
    intro n; cases n <;> rfl
  have henum1 : ∀ x : SAMSystem, ([x] : List SAMSystem).enum = [(0, x)] :=
    fun _ => rfl
  rcases le_or_lt (600 : ℝ) (t + 5) with h6 | h6
  · simp [advanceSimulationTimeStep, updateSAMTrackingStatus,
      SAMDetectionAndEngagementLogic, fighterLaunchHARMLogic, updateMissileTracking,
      updateMissilePositions, updateFighterManeuvers, updateFighterPositions,
      evaluateKillCriteria, checkSimulationComplete, baseC5, stateC4, samC4,
      fighterC4, trackingUpdateForFighter, SAMSystem.getRangeAtAzimuth,
      SAMSystem.getDetectionRanges, calculateDetectionRange_zero_range, hgetD,
      h100, mapDelete, harmLaunchForSam, henum1, List.enum_nil,
      MAX_SIMULATION_TIME, h6]
    all_goals norm_num [h100, h6]
    all_goals decide
  · simp [advanceSimulationTimeStep, updateSAMTrackingStatus,
      SAMDetectionAndEngagementLogic, fighterLaunchHARMLogic, updateMissileTracking,
      updateMissilePositions, updateFighterManeuvers, updateFighterPositions,
      evaluateKillCriteria, checkSimulationComplete, baseC5, stateC4, samC4,
      fighterC4, trackingUpdateForFighter, SAMSystem.getRangeAtAzimuth,
      SAMSystem.getDetectionRanges, calculateDetectionRange_zero_range, hgetD,
      h100, mapDelete, harmLaunchForSam, henum1, List.enum_nil,
      MAX_SIMULATION_TIME, not_le.2 h6]
    all_goals norm_num [h100, not_le.2 h6]
    all_goals decide

/-- The zero-interceptor run after `k+1` steps: the clock reads `5·(k+1)`
and the completion flag is the cap test. -/
theorem iterateC5 (k : ℕ) :
    iterateAdvance (fun _ => 0) stateC4 (k + 1) =
      (baseC5 (5 * ((k : ℝ) + 1)) (decide ((600 : ℝ) ≤ 5 * ((k : ℝ) + 1))),
       decide ((600 : ℝ) ≤ 5 * ((k : ℝ) + 1))) := by
  induction k with
  | zero =>
    have h0 : (iterateAdvance (fun _ => 0) stateC4 0).1 = baseC5 0 false := rfl
    show advanceSimulationTimeStep (fun _ => 0)
      (iterateAdvance (fun _ => 0) stateC4 0).1 = _
    rw [h0, advance_baseC5]
    norm_num
  | succ n ih =>
    show advanceSimulationTimeStep (fun _ => 0)
      (iterateAdvance (fun _ => 0) stateC4 (n + 1)).1 = _
    rw [ih]
    show advanceSimulationTimeStep (fun _ => 0) (baseC5 _ _) = _
    rw [advance_baseC5]
    have harith : (5 : ℝ) * ((n : ℝ) + 1) + 5 = 5 * (((n + 1 : ℕ) : ℝ) + 1) := by
      push_cast
      ring
    rw [harith]

/-- C5 (corrected): the result's success flag consults only the SAM states
— it is true exactly when every site is destroyed, with the fighter's fate
and the order of destruction ignored; and the spec's boundary scenario does
hold: from the zero-interceptor, zero-weapon state `stateC4` the run
advances with no launches and no kills, first reports completion on the
120th step when the clock reaches the 600 s cap, and ends with
`success = false` and no missiles. -/
theorem engagement_success_iff_sams_destroyed :
    (∀ s : ScenarioState, (engagementResult s).success = true ↔
      ∀ sam ∈ s.scenarioSams, sam.state = .destroyed) ∧
    (∀ n : ℕ, 0 < n → n < 120 →
      (iterateAdvance (fun _ => 0) stateC4 n).2 = false) ∧
    (iterateAdvance (fun _ => 0) stateC4 120).2 = true ∧
    (iterateAdvance (fun _ => 0) stateC4 120).1.timeElapsed = 600 ∧
    (engagementResult (iterateAdvance (fun _ => 0) stateC4 120).1).success = false ∧
    (iterateAdvance (fun _ => 0) stateC4 120).1.missiles = [] := by
  have h120 : (120 : ℕ) = 119 + 1 := rfl
  refine ⟨?_, ?_, ?_, ?_, ?_, ?_⟩
  · intro s
    simp [engagementResult, List.all_eq_true]
  · intro n hn0 hn
    obtain ⟨k, rfl⟩ : ∃ k, n = k + 1 := ⟨n - 1, by omega⟩
    rw [iterateC5]
    have hk : (k : ℝ) ≤ 118 := by exact_mod_cast (show k ≤ 118 by omega)
    simp only [decide_eq_false_iff_not, not_le]
    linarith
  · rw [h120, iterateC5]
    norm_num
  · rw [h120, iterateC5]
    show (baseC5 _ _).timeElapsed = 600
    norm_num [baseC5]
  · rw [h120, iterateC5]
    show (engagementResult (baseC5 _ _)).success = false
    simp [engagementResult, baseC5, stateC4, samC4]
  · rw [h120, iterateC5]
    rfl

/-- A site missile one step short of the fighter: it covers the last
kilometre during the step and detonates on arrival. -/
def m1C5 : TMissile where
  position := ⟨9, 0⟩
  velocity := 1 / 5
  heading := 0
  status := .active
  launchedBy := .sam
  timeOfLaunch := 0
  timeOfImpact := 0
  maxRange := some 50
  target := .fighterRef 0

/-- A HARM closing on the site from 5 km; after the step it is 4 km out,
inside the 5 km aircraft-launched kill radius. -/
def m2C5 : TMissile where
  position := ⟨5, 0⟩
  velocity := 1 / 5
  heading := Real.pi
  status := .active
  launchedBy := .fighter
  timeOfLaunch := 0
  timeOfImpact := 0
  maxRange := none
  target := .samRef 0

/-- The mutual-kill state: both missiles resolve in the same 5 s step. -/
def sC5 : ScenarioState where
  id := "c5"
  timeStep := 5
  timeElapsed := 0
  scenarioSams := [samC4]
  scenarioFighters := [fighterC4]
  missiles := [m1C5, m2C5]
  isEngagementComplete := false

/-- `sC5` after the motion sub-steps, as seen by the kill evaluation. -/
def sC5' : ScenarioState :=
  { sC5 with
    timeElapsed := 5
    missiles := [{ m1C5 with position := ⟨10, 0⟩ },
                 { m2C5 with position := ⟨4, 0⟩ }] }

/-- The completed mutual-kill state: both platforms destroyed, both
missiles `kill` with impact time 5. -/
def finalC5 : ScenarioState :=
  { sC5 with
    timeElapsed := 5
    scenarioSams := [{ samC4 with state := .destroyed }]
    scenarioFighters := [{ fighterC4 with state := .destroyed }]
    missiles := [{ m1C5 with position := ⟨10, 0⟩, status := .kill, timeOfImpact := 5 },
                 { m2C5 with position := ⟨4, 0⟩, status := .kill, timeOfImpact := 5 }]
    isEngagementComplete := true }

/-- The motion sub-steps on `sC5`: the site missile flies `(9,0) → (10,0)`
onto the fighter and the HARM flies `(5,0) → (4,0)` toward the site;
nothing else changes. -/
theorem samC4_rangeAtAzimuth (az : ℝ) : samC4.getRangeAtAzimuth az = 0 := by
  have hgetD : ∀ n : ℕ, List.getD ([(0 : ℝ)] : List ℝ) n 0 = 0 := by
    intro n; cases n <;> rfl
  simp [SAMSystem.getRangeAtAzimuth, SAMSystem.getDetectionRanges, samC4,
    calculateDetectionRange_zero_range, hgetD]

/-- The static fighter 10 km out is never detected by the zero-range site. -/
theorem trackingC5_miss (tS tE : ℝ) :
    trackingUpdateForFighter tS tE samC4 fighterC4 = samC4 := by
  have h100 : Real.sqrt 100 = 10 := sqrt_eval (by norm_num) (by norm_num)
  have hcond : ¬(Real.sqrt ((fighterC4.position.x - samC4.position.x) ^ 2 +
      (fighterC4.position.y - samC4.position.y) ^ 2) ≤
        calculateDetectionRange
          (fighterC4.getRCSFromPosition fighterC4.position samC4.position
            fighterC4.heading) 1
          (samC4.getRangeAtAzimuth (samC4.getAzimuthToTarget fighterC4.position))) := by
    rw [samC4_rangeAtAzimuth, calculateDetectionRange_zero_range,
      show fighterC4.position = (⟨10, 0⟩ : IPosition2D) from rfl,
      show samC4.position = (⟨0, 0⟩ : IPosition2D) from rfl]
    norm_num [h100]
  simp only [trackingUpdateForFighter, samC4_rangeAtAzimuth,
    calculateDetectionRange_zero_range]
  rw [if_neg]
  · rfl
  · rw [samC4_rangeAtAzimuth, calculateDetectionRange_zero_range] at hcond
    exact hcond

/-- The zero-HARM-range fighter never launches at the site 10 km away. -/
theorem harmC5_no (tE : ℝ) (ms : List TMissile) :
    harmLaunchForSam tE (fighterC4, ms) (0, samC4) = (fighterC4, ms) := by
  have h100 : Real.sqrt 100 = 10 := sqrt_eval (by norm_num) (by norm_num)
  have hcond : ¬(Real.sqrt ((fighterC4.position.x - samC4.position.x) ^ 2 +
      (fighterC4.position.y - samC4.position.y) ^ 2) ≤ fighterC4.harmRange) := by
    rw [show fighterC4.position = (⟨10, 0⟩ : IPosition2D) from rfl,
      show samC4.position = (⟨0, 0⟩ : IPosition2D) from rfl,
      show fighterC4.harmRange = 0 from rfl]
    norm_num [h100]
  simp only [harmLaunchForSam]
  rw [if_neg hcond]

theorem samC4_tracked : samC4.trackedTargets = [] := rfl

theorem advanceC5_motion :
    updateFighterPositions (updateFighterManeuvers (updateMissilePositions
      (updateMissileTracking (fun _ => 0) (fighterLaunchHARMLogic
        (SAMDetectionAndEngagementLogic (updateSAMTrackingStatus
          { sC5 with timeElapsed := sC5.timeElapsed + sC5.timeStep })))))) = sC5' := by
  have h100 : Real.sqrt 100 = 10 := sqrt_eval (by norm_num) (by norm_num)
  have henum1 : ∀ x : SAMSystem, ([x] : List SAMSystem).enum = [(0, x)] :=
    fun _ => rfl
  have henum2 : ∀ a b : TMissile, ([a, b] : List TMissile).enum = [(0, a), (1, b)] :=
    fun _ _ => rfl
  have hman : (TManeuvers.noManeuver = TManeuvers.evasive) = False := by simp
  simp only [updateSAMTrackingStatus, SAMDetectionAndEngagementLogic,
    fighterLaunchHARMLogic, sC5, List.map_cons, List.map_nil, List.foldl_cons,
    List.foldl_nil, List.nil_append, trackingC5_miss, harmC5_no, samC4_tracked,
    henum1]
  norm_num [updateMissileTracking, updateMissileTrackingOne,
    updateMissilePositions, updateFighterManeuvers, updateFighterPositions,
    henum2, targetRefId, targetPosition, mapGet, updateHeading, wrapToPi, jsAtan2,
    sC5', sC5, m1C5, m2C5, samC4, fighterC4, Real.arctan_zero, Real.cos_pi,
    Real.sin_pi, hman, Function.comp, h100]

/-- The kill evaluation on `sC5'`: the site missile is on the fighter
(distance 0 ≤ radius 1) and the HARM is 4 km from the site (≤ radius 5),
so both targets are destroyed in the same pass, fighter first (index 0). -/
theorem evaluateKillCriteria_C5 :
    evaluateKillCriteria sC5' = { finalC5 with isEngagementComplete := false } := by
  have h16 : Real.sqrt 16 = 4 := sqrt_eval (by norm_num) (by norm_num)
  have hlen : sC5'.missiles.length = 2 := rfl
  have hrange : List.range 2 = [0, 1] := rfl
  simp only [evaluateKillCriteria, hlen, hrange, List.foldl_cons, List.foldl_nil]
  simp [evaluateKillOne, checkMissileIntercept, destroyTarget, sC5', sC5,
    finalC5, m1C5, m2C5, samC4, fighterC4, List.get?_cons_zero,
    List.get?_cons_succ, Real.sqrt_zero, h16]
  all_goals norm_num [h16]

/-- Counterexample to C5's ordering clause: a completed engagement in which
the fighter is destroyed in the very same kill pass (first, at index 0,
with equal impact times) and yet the overall success flag is `true`,
because `engagementResult` only tests whether every SAM is destroyed. -/
theorem success_despite_fighter_destroyed :
    advanceSimulationTimeStep (fun _ => 0) sC5 = (finalC5, true) ∧
    (engagementResult finalC5).success = true ∧
    finalC5.scenarioFighters.map Fighter.state = [.destroyed] ∧
    finalC5.missiles.map TMissile.status = [.kill, .kill] ∧
    finalC5.missiles.map TMissile.timeOfImpact = [5, 5] := by
  refine ⟨?_, rfl, rfl, rfl, rfl⟩
  have hc : checkSimulationComplete { finalC5 with isEngagementComplete := false } =
      true := rfl
  simp only [advanceSimulationTimeStep]
  rw [advanceC5_motion, evaluateKillCriteria_C5, hc]
  exact rfl

end Spear
